import Mathlib

/-!
# A verification development for the `pyframework` schema / query layer

This file shallowly embeds the parts of the `pyframework` repository that the
checked claims are about:

* `pyframework/core/Table.py` — `Column.from_definition`, `Column.__str__`,
  `Column.get_constraint`, the constraint classes (`Index`, `Unique`,
  `PrimaryKey`, `ForeignKey`);
* `pyframework/AbstractDatabase.py` — `AbstractTranslator.validate`, the
  operator builders `eq`/`gt` of `AbstractSqlTranslator`, `Column.__gt__`;
* `pyframework/AbstractMySqlDatabase.py` — `AbstractMySqlTranslator.validate_and_raise`
  and `AbstractMySqlTranslator.translate` together with the helper lookups
  (`Table.get_column`, `AbstractDatabase.get_table`, `is_valid_column`).

Python strings are modelled by Lean `String` (a wrapper around `List Char`),
and the handful of Python `str` / `list` / `dict` primitives the source uses
are defined below, faithful to CPython semantics on the inputs the source can
feed them.  Fallible Python code (raising) is modelled with `Except PyErr`.
-/

namespace Pyf

/-- The Python exception classes raised by the embedded code. -/
inductive PyErr where
  | exception (msg : String)
  | typeError (msg : String)
  | valueError (msg : String)
  | keyError
  | indexError
  | attributeError (msg : String)
  | nameError (msg : String)
  | notImplementedError
deriving DecidableEq, Repr

/-! ## Python string primitives -/

/-- The whitespace characters recognised by Python's `str.strip()` / `str.split()`. -/
def pyIsSpace (c : Char) : Bool :=
  c == ' ' || c == '\t' || c == '\n' || c == '\r' || c == Char.ofNat 11 || c == Char.ofNat 12

/-- The backquote character (used by the column-definition grammar). -/
def backquote : Char := Char.ofNat 96

/-- `str.lower()` on one character (the definitions this repository parses are ASCII). -/
def pyLowerChar (c : Char) : Char := c.toLower

/-- Python `str.lower()`. -/
def pyLower (s : String) : String := ⟨s.data.map pyLowerChar⟩

/-- `str.strip()` on a character list: drop Python whitespace from both ends. -/
def stripL (l : List Char) : List Char :=
  ((l.dropWhile pyIsSpace).reverse.dropWhile pyIsSpace).reverse

/-- Python `str.strip()`. -/
def pyStrip (s : String) : String := ⟨stripL s.data⟩

/-- Python substring test `needle in hay`, on character lists. -/
def pyInL (needle : List Char) : List Char → Bool
  | [] => needle.isEmpty
  | c :: rest => needle.isPrefixOf (c :: rest) || pyInL needle rest

/-- Python substring test `needle in hay`. -/
def pyIn (needle hay : String) : Bool := pyInL needle.data hay.data

/-- Index of the first occurrence of `needle` in `hay` (`str.index`); the source
only calls it after establishing containment, so the out-of-range fallback
(`hay.length`) is never reached on source-guarded paths. -/
def idxOfL (needle : List Char) : List Char → Nat
  | [] => 0
  | c :: rest => if needle.isPrefixOf (c :: rest) then 0 else idxOfL needle rest + 1

/-- Python `suffix` test `s.endswith(suffix)`. -/
def pyEndsWith (suffix s : String) : Bool :=
  suffix.data.reverse.isPrefixOf s.data.reverse

/-- Python `s.split(None, 1)` unpacked into exactly two parts; `none` models the
`ValueError` raised when unpacking fewer than two values. -/
def pySplitNone1 (s : String) : Option (String × String) :=
  let l := s.data.dropWhile pyIsSpace
  let tok := l.takeWhile (fun c => !pyIsSpace c)
  let rest := (l.drop tok.length).dropWhile pyIsSpace
  if tok.isEmpty || rest.isEmpty then none else some (⟨tok⟩, ⟨rest⟩)

/-- Python `s.split(sep, 1)` for a one-character separator, unpacked into two
parts; `none` models the unpacking `ValueError` when `sep` does not occur. -/
def pySplitChar1 (sep : Char) (s : String) : Option (String × String) :=
  if s.data.contains sep then
    some (⟨s.data.takeWhile (fun c => c != sep)⟩,
          ⟨(s.data.dropWhile (fun c => c != sep)).drop 1⟩)
  else none

/-- Python `s.split(sep, 1)[1]` for a string separator: the part after the first
occurrence of `sep`.  An empty separator raises `ValueError` in Python, and a
separator that does not occur makes the `[1]` indexing raise `IndexError`. -/
def pySplitSub1 (sep s : String) : Except PyErr String :=
  if sep.data.isEmpty then .error (.valueError "empty separator")
  else if pyIn sep s then
    .ok ⟨(s.data.drop (idxOfL sep.data s.data + sep.data.length))⟩
  else .error .indexError

/-- Helper for `pySplitWs`: accumulate the current token and finished tokens. -/
def splitWsGo (cur : List Char) (acc : List (List Char)) : List Char → List (List Char)
  | [] => if cur.isEmpty then acc.reverse else (cur.reverse :: acc).reverse
  | c :: rest =>
    if pyIsSpace c then
      if cur.isEmpty then splitWsGo [] acc rest
      else splitWsGo [] (cur.reverse :: acc) rest
    else splitWsGo (c :: cur) acc rest

/-- Python whitespace tokenisation `s.split()`. -/
def pySplitWs (s : String) : List String :=
  (splitWsGo [] [] s.data).map (fun l => ⟨l⟩)

/-- Python `sep.join(xs)` for a list of strings. -/
def pyJoin (sep : String) (xs : List String) : String :=
  match xs with
  | [] => ""
  | x :: rest => rest.foldl (fun a b => a ++ sep ++ b) x

/-- Python `s.split(",")` (no maxsplit): split on every comma. -/
def pySplitComma (s : String) : List String :=
  (s.data.splitOn ',').map (fun l => ⟨l⟩)

/-- Python list `index` for strings (first match; source guards by containment). -/
def pyListIdx (xs : List String) (x : String) : Nat :=
  match xs with
  | [] => 0
  | y :: rest => if y == x then 0 else pyListIdx rest x + 1

/-- Python `repr` of a `str`, for strings without backslashes, control
characters or a mix of both quote kinds (the only strings the embedded
scenarios interpolate): single quotes, switching to double quotes when the
string itself contains a single quote. -/
def pyReprStr (s : String) : String :=
  if s.data.contains '\'' then "\"" ++ s ++ "\"" else "'" ++ s ++ "'"

/-! ## `Column.from_definition` and `Column.__str__` (`pyframework/core/Table.py`) -/

/-- The keyword arguments of `Column.__init__` that a textual column definition
can set, after `Column.__init__` has normalised them
(`self._null = True if null and not primary else False`). -/
structure ColumnDef where
  name : String
  dtype : String
  null : Bool
  default : Option String
  visible : Bool
  increment : Bool
  comment : String
  unique : Bool
  key : Bool
  primary : Bool
deriving DecidableEq, Repr

/-- `Column.__init__`: stores the keyword arguments, with
`null := null && !primary` (and constraint objects created from
`primary`/`unique`/`key`, recorded here as the three flags). -/
def columnInit (name dtype : String) (null : Bool) (default : Option String)
    (visible increment unique key primary : Bool) (comment : String) : ColumnDef :=
  { name := name, dtype := dtype, null := null && !primary, default := default,
    visible := visible, increment := increment, comment := comment,
    unique := unique, key := key, primary := primary }

/-- The option keywords scanned by `Column.from_definition`, in source order. -/
def defOptions : List String :=
  ["null", "default", "visible", "increment", "unique", "key", "comment"]

/-- The token stop-list used when extracting a `default` value. -/
def defaultStops : List String :=
  ["visible", "invisible", "auto_increment", "increment", "unique", "key", "comment"]

/-- The `while end < len(definition) and definition[end] not in [...]` scan of
`Column.from_definition`, with fuel (the scan index only increases and stops at
the list's end, so `tokens.length` fuel suffices). -/
def scanEnd (tokens : List String) (fuel e : Nat) : Nat :=
  match fuel with
  | 0 => e
  | fuel + 1 =>
    match tokens.get? e with
    | some t => if defaultStops.contains t then e else scanEnd tokens fuel (e + 1)
    | none => e

/-- The name-extraction phase of `Column.from_definition`: the first word, or
the backquoted phrase, together with the rest of the (re-stripped) definition.
Python exceptions (unpacking errors, indexing an empty string) are `Except`
errors. -/
def parse_name (definition : String) : Except PyErr (String × String) :=
  match definition.data with
  | [] => .error .indexError -- `definition[0]` on an empty string
  | c :: rest =>
    if c == backquote then
      match pySplitChar1 backquote ⟨rest⟩ with
      | some (nm, d) => .ok (nm, pyStrip d)
      | none => .error (.valueError "not enough values to unpack")
    else
      match pySplitNone1 definition with
      | some (nm, d) => .ok (nm, d)
      | none => .error (.valueError "not enough values to unpack")

/-- `Column.from_definition` (parsing a textual column definition), returning
the `Column.__init__` keyword arguments.  Python exceptions (unpacking errors,
indexing an empty string, splitting on an empty separator) are `Except` errors. -/
def from_definition (definition : String) : Except PyErr ColumnDef := do
  let definition := pyStrip definition
  -- get the name as the first word or phrase
  let (rawName, definition) ← parse_name definition
  let name := pyLower rawName
  -- see which option keyword occurs first (in the fixed option order)
  match defOptions.find? (fun o => pyIn o (pyLower definition)) with
  | some firstOpt =>
    -- the dtype is before it
    let dtype := pyStrip ⟨definition.data.take (idxOfL firstOpt.data (pyLower definition).data)⟩
    -- but some options have optional preludes attached to the dtype
    let (dtype, nullFlag) :=
      if firstOpt == "null" && pyEndsWith " not" dtype then
        (pyStrip ⟨dtype.data.take (dtype.data.length - 3)⟩, false)
      else if firstOpt == "visible" && pyEndsWith " in" dtype then
        (pyStrip ⟨dtype.data.take (dtype.data.length - 2)⟩, true)
      else if firstOpt == "increment" && pyEndsWith " auto_" dtype then
        (pyStrip ⟨dtype.data.take (dtype.data.length - 5)⟩, true)
      else if firstOpt == "key" && pyEndsWith " primary" dtype then
        (pyStrip ⟨dtype.data.take (dtype.data.length - 7)⟩, true)
      else (dtype, true)
    -- the definition then continues after the dtype
    let after ← pySplitSub1 dtype definition
    let tokens := pySplitWs (pyStrip after)
    let defaultV :=
      if tokens.contains "default" then
        let start := pyListIdx tokens "default" + 1
        let e := scanEnd tokens tokens.length (start + 1)
        some (pyJoin " " ((tokens.drop start).take (e - start)))
      else none
    let visible := tokens.contains "visible" || !(tokens.contains "invisible")
    let increment := tokens.contains "auto_increment" || tokens.contains "increment"
    let uniqueF := tokens.contains "unique"
    let keyF := tokens.contains "key"
    let primaryF := tokens.contains "primary"
    let comment :=
      if tokens.contains "comment" then
        pyJoin " " (tokens.drop (pyListIdx tokens "comment" + 1))
      else ""
    pure (columnInit name dtype nullFlag defaultV visible increment uniqueF keyF primaryF comment)
  | none =>
    -- if there's none, we're done: the whole remainder is the dtype
    pure (columnInit name definition true none true false false false false "")

/-- `Column.__str__`: `f"{self.name} {self.dtype!s}"`. -/
def columnStr (c : ColumnDef) : String := c.name ++ " " ++ c.dtype

/-! ## Constraints and `Column.get_constraint` (`pyframework/core/Table.py`) -/

/-- A constraint instance attached to a column: `kind` is its Python class
(`"Index"`, `"Unique"`, `"PrimaryKey"`, `"ForeignKey"`), `name` its `_name`
(the class default `"index"`/`"unique"`/`"primary"`, or the explicit `name`
argument), and `id` distinguishes instances. -/
structure ConsM where
  id : Nat
  kind : String
  name : String
deriving DecidableEq, Repr

/-- Python's stable `sorted(ret, key=lambda x: x.name != nm)`: the elements
whose name is `nm` first (key `False` sorts before `True`), each group in its
original order. -/
def pySortNameFirst (nm : String) (l : List ConsM) : List ConsM :=
  l.filter (fun c => c.name == nm) ++ l.filter (fun c => c.name != nm)

/-- Whether a constraint name is one of the three categorical names. -/
def nameIsCat3 (n : String) : Bool :=
  n == "index" || n == "primary" || n == "unique"

/-- The three categorical constraint names matched by a `get_constraint "index"`
query. -/
def isCat3 (c : ConsM) : Bool := nameIsCat3 c.name

/-- The two constraint names matched by a `get_constraint "unique"` or
`get_constraint "primary"` query. -/
def isCat2 (c : ConsM) : Bool :=
  c.name == "unique" || c.name == "primary"

/-- The conditional stable sort of the `"index"` branch: primaries first when
one is present, else uniques first when one is present, else unchanged. -/
def sortIndexRet (ret : List ConsM) : List ConsM :=
  if ret.any (fun c => c.name == "primary") then pySortNameFirst "primary" ret
  else if ret.any (fun c => c.name == "unique") then pySortNameFirst "unique" ret
  else ret

/-- The conditional stable sort of the `"unique"`/`"primary"` branch: primaries
first when one is present and `ret[0]` is not already a primary. -/
def sortUniqueRet (ret : List ConsM) : List ConsM :=
  match ret with
  | [] => []
  | a :: _ =>
    if ret.any (fun c => c.name == "primary") && !(a.name == "primary") then
      pySortNameFirst "primary" ret
    else ret

/-- The result of `Column.get_constraint`: a constraint, Python `None`, or the
string argument echoed back (the final `else: return constraint`). -/
inductive GcRes where
  | noneR
  | found (c : ConsM)
  | echo (q : String)
deriving DecidableEq, Repr

/-- `Column.get_constraint(constraint)` for a string argument, acting on the
column's constraint list; returns the result and the (possibly collapsed)
constraint list.  The empty-`sorted` fallbacks are unreachable (the sorted list
is a permutation of a list of length at least two). -/
def get_constraint (q : String) (cs : List ConsM) : GcRes × List ConsM :=
  if q == "index" then
    match cs.filter isCat3 with
    | [] => (.noneR, cs)
    | [c] => (.found c, cs)
    | a :: b :: rest =>
      match sortIndexRet (a :: b :: rest) with
      | c :: _ => (.found c, cs.filter (fun x => !isCat3 x) ++ [c])
      | [] => (.noneR, cs)
  else if q == "unique" || q == "primary" then
    match cs.filter isCat2 with
    | [] => (.noneR, cs)
    | [c] => (.found c, cs)
    | a :: b :: rest =>
      match sortUniqueRet (a :: b :: rest) with
      | c :: _ => (.found c, cs.filter (fun x => !isCat2 x) ++ [c])
      | [] => (.noneR, cs)
  else if cs.any (fun c => c.name == q) then
    match cs.filter (fun c => c.name == q) with
    | [] => (.noneR, cs)
    | [c] => (.found c, cs)
    | c :: _ :: _ => (.found c, cs.filter (fun x => x.name != q) ++ [c])
  else
    (.echo q, cs)

/-! ## `ForeignKey.__init__` (`pyframework/core/Table.py`) -/

/-- A column as seen by the constraint constructors: the identity of its owning
table (`tableId`, standing for Python object identity of `column.table`), the
`str()` of that table (used in the default foreign-key name), the column name,
and its constraint list. -/
structure ColumnK where
  tableId : Nat
  tableStr : String
  name : String
  constraints : List ConsM
deriving DecidableEq, Repr

/-- The final `_name` of a `ForeignKey`: the explicit `name` argument if truthy,
otherwise `f"fk_{self.target.table}_{self.target.name}_{self.foreign.name}"`
(interpolating `str()` of the target's table). -/
def fkFinalName (target foreign : ColumnK) (name : String) : String :=
  if name == "" then
    "fk_" ++ target.tableStr ++ "_" ++ target.name ++ "_" ++ foreign.name
  else name

/-- The outcome of running `ForeignKey.__init__`: the error (if raised), the
final states of the two columns' constraint lists, the created foreign key, and
whether a fresh `Index` was auto-attached to the foreign column. -/
structure FkOut where
  err : Option String
  target : ColumnK
  foreign : ColumnK
  fk : Option ConsM
  indexAdded : Bool
deriving DecidableEq, Repr

/-- `ForeignKey.__init__(target, foreign, name)`.  The self-reference check
runs before any mutation; on success the foreign key is appended to both
columns' constraint lists, then `self.foreign.get_constraint("index")` (which
may itself collapse the foreign column's list) decides whether a fresh
`Index(foreign)` is attached.  `fkId`/`idxId` supply the identities of the
created instances. -/
def foreign_key_init (fkId idxId : Nat) (target foreign : ColumnK) (name : String) : FkOut :=
  if target.tableId == foreign.tableId then
    { err := some "Cannot foreign key a table on itself", target := target,
      foreign := foreign, fk := none, indexAdded := false }
  else
    let fk : ConsM := { id := fkId, kind := "ForeignKey", name := fkFinalName target foreign name }
    let target' := { target with constraints := target.constraints ++ [fk] }
    let foreign' := { foreign with constraints := foreign.constraints ++ [fk] }
    let (r, fcons) := get_constraint "index" foreign'.constraints
    let foreign'' := { foreign' with constraints := fcons }
    match r with
    | .found _ =>
      { err := none, target := target', foreign := foreign'', fk := some fk, indexAdded := false }
    | _ =>
      let idx : ConsM := { id := idxId, kind := "Index", name := "index" }
      { err := none, target := target',
        foreign := { foreign'' with constraints := foreign''.constraints ++ [idx] },
        fk := some fk, indexAdded := true }

/-! ## `Unique.prepare` / `Unique.validate` (`pyframework/core/Table.py`) -/

/-- A `Unique` constraint: the target column's name and the lazily built value
cache (`none` until the Python attribute `values` first exists). -/
structure UniqueC (V : Type) where
  targetName : String
  values : Option (List V)
deriving DecidableEq

/-- Python `row[key]` on a result row modelled as an association list. -/
def rowGet {V : Type} (r : List (String × V)) (k : String) : Option V :=
  (r.find? (fun kv => kv.1 == k)).map (fun kv => kv.2)

/-- `Unique.prepare`: build the cache from the rows that
`self.target.table.distinct(self.target)` returned (`results` models the
executor's response; the `isinstance` guard in the source is a no-op for list
results because its `and` short-circuits to `False`).  A row lacking the target
column raises `KeyError`. -/
def uniquePrepare {V : Type} [DecidableEq V] (u : UniqueC V)
    (results : List (List (String × V))) : Except PyErr (UniqueC V) := do
  let vs ← results.mapM (fun r =>
    match rowGet r u.targetName with
    | some v => pure v
    | none => throw PyErr.keyError)
  pure { u with values := some vs }

/-- `Unique.validate(value)`: materialise the cache on first use, then raise
`ValueError` exactly when `value in self.values`, and return `self` otherwise.
(`getD []` is only a totality fallback: after `prepare` the cache is present.) -/
def uniqueValidate {V : Type} [DecidableEq V] (u : UniqueC V)
    (results : List (List (String × V))) (value : V) : Except PyErr (UniqueC V) := do
  let u ←
    match u.values with
    | none => uniquePrepare u results
    | some _ => pure u
  if (u.values.getD []).contains value then
    throw (.valueError "is not unique")
  else
    pure u

/-! ## `AbstractTranslator.validate` (`pyframework/AbstractDatabase.py`) -/

/-- The attributes of an `AbstractTranslator` instance: the `_db` field set by
`__init__` plus the class's properties and methods, as defined in the source. -/
def abstract_translator_attrs : List String :=
  ["_db", "db", "dtypes", "_dtypes_multi", "NULL", "escape_string",
   "is_valid_column", "interpret", "translate", "lstrip_dtype",
   "validate_and_raise", "validate", "add", "contains", "div", "eq", "ge",
   "gt", "le", "like", "logical_and", "logical_or", "lt", "mul", "ne", "sub"]

/-- The body of `AbstractTranslator.validate`'s `try` block:
`self.validate_and_raised(db, *args, **kwargs)`.  The attribute lookup
`self.validate_and_raised` is evaluated first and raises `AttributeError`
(no such attribute exists); even if it existed, the bare name `db` is undefined
and would raise `NameError`. -/
def validate_body : Except PyErr Bool :=
  if abstract_translator_attrs.contains "validate_and_raised" then
    throw (.nameError "name 'db' is not defined")
  else
    throw (.attributeError "'AbstractTranslator' object has no attribute 'validate_and_raised'")

/-- `AbstractTranslator.validate(*args, **kwargs)`: run the body, return
`False` on any exception and `True` otherwise. -/
def translator_validate (_args : List String) : Bool :=
  match validate_body with
  | .error _ => false
  | .ok b => b

/-! ## The schema registry (`Table`, `Database`) used by the translator -/

/-- A table column as the translator sees it: `tableName` stands for the
identity of the owning `Table` object (table names are unique in a registry). -/
structure ColumnT where
  tableName : String
  name : String
  dtype : String
  null : Bool
  visible : Bool
deriving DecidableEq, Repr

/-- `Column.__repr__` for a column attached to a table:
`f"{self.table.name}.{self.name}"`. -/
def reprColumnT (c : ColumnT) : String := c.tableName ++ "." ++ c.name

/-- `Column.__str__`: `f"{self.name} {self.dtype!s}"`. -/
def strColumnT (c : ColumnT) : String := c.name ++ " " ++ c.dtype

/-- The Python `==` between two real (non-expression) columns, as evaluated by
membership tests: `bool(db.eq(a, b))` compares owning-table identity, name and
dtype (`Column.__bool__`, the two-`Column` case). -/
def colEqPy (a b : ColumnT) : Bool :=
  a.tableName == b.tableName && a.name == b.name && a.dtype == b.dtype

/-- `b.split(" ")[0]` (Python `split` without maxsplit keeps the whole string
when the separator is absent, so the first element is the prefix before the
first space). -/
def firstSpacePart (b : String) : String :=
  ⟨b.data.takeWhile (fun c => c != ' ')⟩

/-- Python `s.rsplit(" ", 1)` as the pair `(s.rsplit(" ",1)[0], s.rsplit(" ",1)[-1])`:
when a space is present, the parts around the last space; otherwise `[0] = s`
(and the `[1]` access, which the source always guards, is modelled by `""`). -/
def pyRsplitSpace1 (s : String) : String × String :=
  if s.data.contains ' ' then
    let rev := s.data.reverse
    (⟨((rev.dropWhile (fun c => c != ' ')).drop 1).reverse⟩,
     ⟨(rev.takeWhile (fun c => c != ' ')).reverse⟩)
  else (s, "")

/-- `Column.__bool__` for a comparison column whose operands are a real column
`a` and a string `b` (the source's `Column`/`str` case).  In the qualified
`"table.column"` case the source compares `a.table` (a `Table` object) with a
string, which is always `False`. -/
def colStrBool (a : ColumnT) (b : String) : Bool :=
  let current :=
    if (firstSpacePart b).data.count '.' == 1 then false
    else a.name == b
  if b.data.contains ' ' then current && (a.dtype == (pyRsplitSpace1 b).2)
  else current

/-- A `Table` of the registry: name and owned columns. -/
structure TableM where
  name : String
  columns : List ColumnT
deriving DecidableEq, Repr

/-- `Table.__repr__`: `f"{self.name!r}" if "join" not in self.name else self.name`. -/
def reprTableM (t : TableM) : String :=
  if pyIn "join" t.name then t.name else pyReprStr t.name

/-- `Table.column_names`. -/
def column_names (t : TableM) : List String := t.columns.map (fun c => c.name)

/-- Python `s.strip(".")`: strip dots from both ends. -/
def pyStripDot (s : String) : String :=
  ⟨((s.data.dropWhile (fun c => c == '.')).reverse.dropWhile (fun c => c == '.')).reverse⟩

/-- Python `s.replace(old, new)` on character lists (all non-overlapping
occurrences, left to right); an empty `old` is never passed by the source. -/
def replaceL (old new : List Char) : List Char → List Char
  | [] => []
  | c :: rest =>
    if h : old ≠ [] ∧ old.isPrefixOf (c :: rest) then
      new ++ replaceL old new ((c :: rest).drop old.length)
    else
      c :: replaceL old new rest
termination_by l => l.length
decreasing_by
  · simp only [List.length_drop, List.length_cons]
    have : 1 ≤ old.length := by
      cases old with
      | nil => exact absurd rfl h.1
      | cons _ _ => simp
    omega
  · simp

/-- Python `s.replace(old, new)`. -/
def pyReplace (old new s : String) : String := ⟨replaceL old.data new.data s.data⟩

/-- The reference forms accepted by the lookup helpers and the `fields`
argument of `validate_and_raise`/`translate`: Python `None`, `str`, `int`,
`Column`, an iterable of references, or a `{field: value}` mapping.  Mapping
keys are `str` or `int` (a real `Column` defines `__eq__` without `__hash__`
and is therefore unhashable — it can never be a `dict` key). -/
inductive MKey where
  | ks (s : String)
  | ki (n : Int)
deriving DecidableEq, Repr

/-- An element of an iterable `fields` argument (the embedded call surface
passes strings, columns or ints inside iterables; deeper nesting never reaches
a distinct code path — every lookup helper treats it as a definite miss). -/
inductive FItem where
  | istr (s : String)
  | iint (n : Int)
  | icol (c : ColumnT)
  | inone
deriving DecidableEq, Repr

inductive FieldsV where
  | fnone
  | fstr (s : String)
  | fint (n : Int)
  | fcol (c : ColumnT)
  | flist (l : List FItem)
  | fmap (m : List (MKey × String))
deriving DecidableEq, Repr

/-- View an iterable element as a `fields` value. -/
def FItem.toF : FItem → FieldsV
  | .istr s => .fstr s
  | .iint n => .fint n
  | .icol c => .fcol c
  | .inone => .fnone

/-- `isinstance(x, Iterable)`: strings, lists and mappings are iterable;
`None`, `int` and `Column` (no `__iter__`) are not. -/
def isIterable : FieldsV → Bool
  | .fstr _ => true
  | .flist _ => true
  | .fmap _ => true
  | _ => false

/-- `Table.get_column(col)`: identity/equality match against the columns, then
a bare-name match, then a `"table.column"` match with every occurrence of the
table name removed and dots stripped.  Returns `None` (a definite miss)
otherwise. -/
def get_column (t : TableM) (col : FieldsV) : Option ColumnT :=
  match col with
  | .fcol c => if t.columns.any (fun e => colEqPy e c) then some c else none
  | .fstr s =>
    if (column_names t).contains s then
      t.columns.find? (fun c => c.name == s)
    else if pyIn t.name s && (column_names t).contains (pyStripDot (pyReplace t.name "" s)) then
      t.columns.find? (fun c => c.name == pyStripDot (pyReplace t.name "" s))
    else none
  | _ => none

/-- The database as the translator sees it: the connection flag
(`self.db.open`) and the table registry. -/
structure DbM where
  isOpen : Bool
  tables : List TableM
deriving DecidableEq, Repr

/-- The `table` argument (and its state after resolution): a string, a `Table`,
or Python `None` (the result of a failed `get_table`). -/
inductive TV where
  | tstr (s : String)
  | ttbl (t : TableM)
  | tnone
deriving DecidableEq, Repr

def table_names (db : DbM) : List String := db.tables.map (fun t => t.name)

/-- `AbstractDatabase.get_table(table)`: the table itself when it is in the
registry, a name lookup for strings, `None` otherwise.  (The source's
alternative `table.db == self` escape hatch for tables holding a back-reference
to this database is keyed here on registry membership.) -/
def get_table (db : DbM) (tv : TV) : Option TableM :=
  match tv with
  | .ttbl t => if db.tables.contains t then some t else none
  | .tstr s =>
    if (table_names db).contains s then db.tables.find? (fun t => t.name == s)
    else none
  | .tnone => none

/-- `AbstractDatabase.get_column(table, column)`. -/
def db_get_column (db : DbM) (tv : TV) (col : FieldsV) : Option ColumnT :=
  match get_table db tv with
  | none => none
  | some t => get_column t col

/-- `AbstractMySqlTranslator.dtypes`: the keys of `MYSQL_TYPES`, lower-cased
and truncated at the first `"["` (note `"varchar(m)"`/`"varbinary(m)"`: their
keys use parentheses, which `split("[")` does not touch), plus the
`_dtypes_multi` names from `MYSQL_MULTI_TYPES`. -/
def mysql_dtypes : List String :=
  ["bit", "tinyint", "bool", "smallint", "mediumint", "int", "bigint", "serial",
   "decimal", "float", "double", "date", "datetime", "timestamp", "time", "year",
   "char", "varchar(m)", "binary", "varbinary(m)", "tinyblob", "tinytext", "blob",
   "text", "mediumblob", "mediumtext", "longblob", "longtext", "enum", "set"]

/-- `AbstractTranslator.is_valid_column(table, col)` (the diagnostic `print`
calls of the source are side effects without influence on the result). -/
def is_valid_column (t : TableM) (col : FieldsV) : Bool :=
  match col with
  | .fstr s =>
    if !(s.data.contains ' ') then false -- `len(col.split(" ", 1)) < 2`
    else if !(mysql_dtypes.contains (pyRsplitSpace1 s).2) then false
    else (get_column t (.fstr (pyRsplitSpace1 s).1)).isNone
  | .fcol c =>
    if !(mysql_dtypes.contains c.dtype) then false
    else (get_column t (.fcol c)).isNone
  | _ => false

/-! ## Modifier values (`where` / `limit` / `groupby` / `orderby`) -/

/-- A Python value passed as a shared modifier: `None`, `bool`, `int`, `str`,
a real table `Column`, or a comparison-typed expression `Column` (`pcomp`
carries its rendered text and the value its `__bool__` evaluates to; its
operand pair is not needed by the embedded paths). -/
inductive PyV where
  | pnone
  | pbool (b : Bool)
  | pint (n : Int)
  | pstr (s : String)
  | pcol (c : ColumnT)
  | pcomp (s : String) (truthy : Bool)
deriving DecidableEq, Repr

/-- Python truthiness of a modifier value (`Column.__bool__` is `True` for any
non-comparison column). -/
def pyTruthy : PyV → Bool
  | .pnone => false
  | .pbool b => b
  | .pint n => n != 0
  | .pstr s => !s.isEmpty
  | .pcol _ => true
  | .pcomp _ b => b

/-- `isinstance(x, int)` — Python `bool` is a subclass of `int`. -/
def pyIsInt : PyV → Bool
  | .pbool _ => true
  | .pint _ => true
  | _ => false

/-- The integer value behind `pyIsInt` (with `True == 1`, `False == 0`). -/
def pyIntVal : PyV → Int
  | .pbool b => if b then 1 else 0
  | .pint n => n
  | _ => 0

/-- `isinstance(x, (str, Column))` for a modifier value. -/
def pyIsStrOrCol : PyV → Bool
  | .pstr _ => true
  | .pcol _ => true
  | .pcomp _ _ => true
  | _ => false

/-- `repr` of a modifier value as interpolated by the clause builders
(`repr(None) == "None"`; a comparison column's `repr` is its rendered text
since its `table` field is an operand tuple without a `name`). -/
def reprPyV : PyV → String
  | .pnone => "None"
  | .pbool b => if b then "True" else "False"
  | .pint n => toString n
  | .pstr s => pyReprStr s
  | .pcol c => reprColumnT c
  | .pcomp s _ => s

/-- The membership test `check not in table.columns + table.column_names +
[table.name + "." + c for c in table.column_names]` (negated here: "is a
member").  Element-wise Python `==` goes through the comparison-column
machinery: a real column equals a string per `colStrBool`, equals another real
column per `colEqPy`, and a comparison-typed `check` reaches the string
elements where the reflected `Column.__eq__` raises `NotImplementedError`
(its `table` is an operand tuple without a `db`). -/
def memberColList (check : PyV) (t : TableM) : Except PyErr Bool :=
  let qualified := (column_names t).map (fun c => t.name ++ "." ++ c)
  match check with
  | .pstr s =>
    pure (t.columns.any (fun c => colStrBool c s)
      || (column_names t).contains s || qualified.contains s)
  | .pcol c =>
    pure (t.columns.any (fun e => colEqPy e c)
      || (column_names t).any (fun nm => colStrBool c nm)
      || qualified.any (fun q => colStrBool c q))
  | .pcomp _ _ =>
    if t.columns.isEmpty then pure false
    else throw .notImplementedError
  | _ => pure false

/-- The keyword arguments of `query`/`validate_and_raise`/`translate` that the
embedded paths read (`some .fnone` models an explicitly passed `None`). -/
structure Kwargs where
  temporary : Option Bool
  clobber : Option Bool
  toK : Option FieldsV
  afterK : Option FieldsV
  nameK : Option PyV
deriving DecidableEq, Repr

def Kwargs.empty : Kwargs := ⟨none, none, none, none, none⟩

/-- Accessing `.get_column` / `.columns` on the resolved `table`: only a real
`Table` has them; a leftover `str` or `None` raises `AttributeError`. -/
def requireTableCols (tv : TV) : Except PyErr TableM :=
  match tv with
  | .ttbl t => .ok t
  | .tstr _ => .error (.attributeError "'str' object has no attribute 'get_column'")
  | .tnone => .error (.attributeError "'NoneType' object has no attribute 'get_column'")

/-- `repr` of the (resolved) `table` value. -/
def reprTV : TV → String
  | .ttbl t => reprTableM t
  | .tstr s => pyReprStr s
  | .tnone => "None"

/-- `repr` of a mapping key. -/
def reprMKey : MKey → String
  | .ks s => pyReprStr s
  | .ki n => toString n

/-- `str()` of a `fields` value (only `Column`, `None`, `str` and `int` reach
an interpolation in the source). -/
def strFieldsV : FieldsV → String
  | .fcol c => strColumnT c
  | .fnone => "None"
  | .fstr s => s
  | .fint n => toString n
  | .flist _ => "[...]"
  | .fmap _ => "{...}"

/-- `repr()` of a `fields` value (`repr` of an attached column is
`"table.name"`). -/
def reprFieldsV : FieldsV → String
  | .fcol c => reprColumnT c
  | .fnone => "None"
  | .fstr s => pyReprStr s
  | .fint n => toString n
  | .flist _ => "[...]"
  | .fmap _ => "{...}"

/-- Python `sep.join(fields)`: joining a string joins its characters, joining a
list requires every element to be a `str`, joining a mapping joins its keys. -/
def pyJoinFields (sep : String) : FieldsV → Except PyErr String
  | .fstr s => pure (pyJoin sep (s.data.map (fun c => String.mk [c])))
  | .flist items => do
    let strs ← items.mapM (fun f =>
      match f with
      | .istr s => pure s
      | _ => throw (PyErr.typeError "sequence item: expected str instance"))
    pure (pyJoin sep strs)
  | .fmap m => do
    let strs ← m.mapM (fun kv =>
      match kv.1 with
      | .ks s => pure s
      | .ki _ => throw (PyErr.typeError "sequence item: expected str instance"))
    pure (pyJoin sep strs)
  | _ => throw (.typeError "can only join an iterable")

/-- Python iteration over a `fields` value: characters of a string, elements of
a list, keys of a mapping. -/
def iterFields : FieldsV → Except PyErr (List FItem)
  | .fstr s => pure (s.data.map (fun c => FItem.istr (String.mk [c])))
  | .flist items => pure items
  | .fmap m => pure (m.map (fun kv =>
      match kv.1 with
      | .ks s => FItem.istr s
      | .ki n => FItem.iint n))
  | _ => throw (.typeError "is not iterable")

/-! ## `AbstractMySqlTranslator.validate_and_raise`
(`pyframework/AbstractMySqlDatabase.py`, lines 255–585)

`esc` is the abstract `self.escape_string` dialect hook. -/

/-- The connection / `@method` / `@table` / `@fields` section of
`validate_and_raise` (everything before the shared modifier checks), returning
the possibly-reassigned `(table, where, limit, groupby, orderby)` that the
shared checks then receive: several branches (`alter column`, `delete`,
`drop table`, `show table`, `describe`/`truncate`) overwrite the modifiers
(in particular `limit = None`) before those checks run. -/
def validate_method_fields (db : DbM) (esc : String → String) (method : String)
    (table : TV) (fields : FieldsV) (wh lim gby oby : PyV) (kw : Kwargs) :
    Except PyErr (TV × PyV × PyV × PyV × PyV) := do
  if !db.isOpen then
    throw (.exception "You must initiate the connection.")
  -- `isinstance(method, str)` holds by the embedding's typing of `method`
  let mut table := table
  let mut fields := fields
  let mut wh := wh
  let mut lim := lim
  let mut gby := gby
  let mut oby := oby
  -- `if "show" not in method or "table" not in table:` (the second operand is
  -- only evaluated when the first is false, and needs `table` to be a string)
  let guard1 ←
    if !(pyIn "show" method) then pure true
    else
      match table with
      | .tstr s => pure (!(pyIn "table" s))
      | .ttbl _ => throw (.typeError "argument of type 'Table' is not iterable")
      | .tnone => throw (.typeError "argument of type 'NoneType' is not iterable")
  if guard1 then
    if table == .tnone then
      throw (.typeError "Database.query@table must be a Table or str in this database (except if @method=create table)")
    if (pyIn "add" method || pyIn "create" method) && pyIn "table" method
        && (get_table db table).isSome then
      throw (.valueError "Database.query@table cannot be a table in self.tables for @method=create table")
    else if (!(pyIn "create" method) && !(pyIn "add" method)) || !(pyIn "table" method) then
      match get_table db table with
      | none => throw (.valueError "Database.query@table must be a table in self.tables for @method!=create table")
      | some t => table := .ttbl t
  -- BEGIN @method / @table / @fields validation
  if method == "insert" then
    match fields with
    | .fmap m =>
      let t ← requireTableCols table
      for kv in m do
        match kv.1 with
        | .ks s =>
          if (get_column t (.fstr s)).isNone then
            throw (.valueError "Database.query@fields may only contains keys in @table.columns for @method=insert")
        | .ki _ =>
          throw (.typeError "Database.query@fields must be Mapping[col, value] for @method=insert, where col is a str or Column")
      for c in t.columns do
        if !c.null && !(m.any (fun kv => kv.1 == .ks c.name)) then
          throw (.valueError "Database.query@fields must be passed all required fields in @table for @method=insert")
    | _ => throw (.typeError "Database.query@fields must be Mapping[col, value] for @method=insert.")
  else if method == "update" then
    match fields with
    | .fmap m =>
      let t ← requireTableCols table
      for kv in m do
        match kv.1 with
        | .ks s =>
          if (get_column t (.fstr s)).isNone then
            throw (.valueError "Database.query@fields may only contains keys in @table.columns for @method=update")
        | .ki _ =>
          throw (.typeError "Database.query@fields must be Mapping[col, value] for @method=update, where col is a str or Column")
    | _ => throw (.typeError "Database.query@fields must be a Mapping for @method=update.")
  else if pyIn "rename" method && pyIn "table" method then
    if fields == .fnone && kw.toK.isSome then
      fields := kw.toK.getD .fnone
    match fields with
    | .fstr s =>
      if (get_table db (.tstr s)).isSome then
        throw (.valueError "Database.query@fields must not be an existing table for @method=rename table")
    | _ => throw (.typeError "Database.query@fields must be a str for @method=rename table")
  else if pyIn "drop" method && pyIn "column" method then
    match fields with
    | .fstr _ | .fcol _ =>
      let t ← requireTableCols table
      if (get_column t fields).isNone then
        throw (.valueError "Database.query@fields must be a column in @table for @method=drop column")
    | _ => throw (.typeError "Database.query@fields must be a column in @table for @method=drop column")
  else if (pyIn "create" method || pyIn "add" method) && pyIn "table" method then
    match table with
    | .tstr s =>
      match fields with
      | .fstr fs =>
        let defs := (pySplitComma fs).map pyStrip
        table := .tstr (esc s) -- `table = self.escape_string(table)  # just in case`
        let freshT : TableM := { name := esc s, columns := [] } -- `Table("", table, [])`
        let mut used : List String := []
        for f in defs do
          if !(is_valid_column freshT (.fstr f)) then
            throw (.valueError "Database.query@fields must be a str or Iterable(col) for @method=create table unless @table is a Table")
          else if used.contains (pyRsplitSpace1 f).1 then
            throw (.valueError "Database.query@fields may not contain duplicate column names for @method=create table unless @table is a Table")
          else
            used := used ++ [(pyRsplitSpace1 f).1]
      | .flist items =>
        let freshT : TableM := { name := s, columns := [] }
        let mut used : List String := []
        for f in items do
          if !(is_valid_column freshT f.toF) then
            throw (.valueError "Database.query@fields must be a str or Iterable(col) for @method=create table unless @table is a Table")
          else
            match f with
            | .istr fs =>
              if used.contains (pyRsplitSpace1 fs).1 then
                throw (.valueError "Database.query@fields may not contain duplicate column names for @method=create table")
              else
                used := used ++ [(pyRsplitSpace1 fs).1]
            | .icol c =>
              if used.contains c.name then
                throw (.valueError "Database.query@fields may not contain duplicate column names for @method=create table")
              else
                used := used ++ [c.name]
            | _ => pure () -- unreachable: `is_valid_column` already rejected it
      | .fmap m =>
        -- a Mapping is Iterable: iterating yields its keys
        let freshT : TableM := { name := s, columns := [] }
        let mut used : List String := []
        for kv in m do
          let f := (match kv.1 with | .ks ks => FieldsV.fstr ks | .ki n => .fint n)
          if !(is_valid_column freshT f) then
            throw (.valueError "Database.query@fields must be a str or Iterable(col) for @method=create table unless @table is a Table")
          else
            match kv.1 with
            | .ks fs =>
              if used.contains (pyRsplitSpace1 fs).1 then
                throw (.valueError "Database.query@fields may not contain duplicate column names for @method=create table")
              else
                used := used ++ [(pyRsplitSpace1 fs).1]
            | .ki _ => pure () -- unreachable: `is_valid_column` already rejected it
      | _ => throw (.typeError "Database.query@fields must be a str or Iterable(col) for @method=create table unless @table is a Table")
    | .ttbl _ =>
      if fields != .fnone then
        throw (.valueError "Database.query@fields must be None for @method=create table and @table is a Table")
    | .tnone => pure () -- unreachable: `None` was rejected by the isinstance check
  else if (pyIn "add" method || pyIn "create" method) && pyIn "column" method then
    let t ← requireTableCols table
    if !(is_valid_column t fields) then
      throw (.valueError "Database.query@fields must be a valid column definition for the table you are adding it to")
    match kw.afterK with
    | some aft =>
      if (db_get_column db table aft).isNone && !(aft == .fstr "first") then
        throw (.valueError "Database.query@after must be a column in the table or first if given")
    | none => pure ()
  else if pyIn "alter" method && pyIn "column" method then
    wh := .pnone; gby := .pnone; oby := .pnone; lim := .pnone
    let mut toV : Option FieldsV := kw.toK
    match fields with
    | .fmap m =>
      match m with
      | [kv] =>
        if toV.isSome && toV != some .fnone then
          throw (.valueError "Database.query@to should not be specified for @method=alter column if @fields is a dict")
        toV := some (.fstr kv.2)
        fields := (match kv.1 with | .ks s => .fstr s | .ki n => .fint n)
      | _ => throw (.valueError "Database.query@fields must have only a single key for @method=alter column if @fields is a dict")
    | _ => pure ()
    let t ← requireTableCols table
    if (get_column t fields).isNone then
      throw (.valueError "Database.query@fields must be a column in @table for @method=alter column")
    match toV with
    | none => throw (.valueError "Database.query@to must be provided for @method=alter column")
    | some tdef =>
      if !(is_valid_column t tdef) then
        throw (.valueError "Database.query@to must be a valid column definition for the table")
  else if method == "distinct" || method == "select" then
    if !(isIterable fields) then
      fields := .flist [(match fields with
        | .fint n => FItem.iint n
        | .fcol c => .icol c
        | _ => .inone)]
    match fields with
    | .flist items =>
      let t ← requireTableCols table
      for f in items do
        if (get_column t f.toF).isNone then
          throw (.typeError "Database.query@fields must be 'all' or Iterable(col).")
    | .fmap m =>
      -- `fields[n] for n in range(len(fields))`: integer-key lookups on the dict
      let t ← requireTableCols table
      for n in [0 : m.length] do
        match m.find? (fun kv => kv.1 == .ki (Int.ofNat n)) with
        | some kv =>
          if (get_column t (.fstr kv.2)).isNone then
            throw (.typeError "Database.query@fields must be 'all' or Iterable(col).")
        | none => throw .keyError
    | .fstr s =>
      let t ← requireTableCols table
      if s != "all" && (get_column t (.fstr s)).isNone then
        throw (.valueError "Database.query@fields must be 'all' or Iterable(col).")
    | _ => pure () -- unreachable: non-iterables were wrapped in a list above
  else if method == "delete" then
    fields := .fnone; gby := .pnone; oby := .pnone; lim := .pnone
  else if pyIn "drop" method && pyIn "table" method then
    fields := .fnone; wh := .pnone; gby := .pnone; oby := .pnone; lim := .pnone
  else if pyIn "show" method then
    -- `elif "show" in method and "table" in table:`
    match table with
    | .tstr s =>
      if pyIn "table" s then
        fields := .fnone; wh := .pnone; gby := .pnone; oby := .pnone; lim := .pnone
      else if method == "describe" || method == "truncate" then
        fields := .fnone; wh := .pnone; gby := .pnone; oby := .pnone; lim := .pnone
      else
        throw (.valueError ("See documentation for allowed values of Database.query@method; " ++ method ++ " not allowed"))
    | .ttbl _ => throw (.typeError "argument of type 'Table' is not iterable")
    | .tnone => throw (.typeError "argument of type 'NoneType' is not iterable")
  else if method == "describe" || method == "truncate" then
    fields := .fnone; wh := .pnone; gby := .pnone; oby := .pnone; lim := .pnone
  else
    throw (.valueError ("See documentation for allowed values of Database.query@method; " ++ method ++ " not allowed"))
  -- END @method / @table / @fields validation
  pure (table, wh, lim, gby, oby)

/-- The shared modifier checks at the end of `validate_and_raise` (the
`@where` check, the `@limit` check, and the `@groupby`/`@orderby` loop),
operating on the values as possibly reassigned by the method branch. -/
def shared_modifier_checks (table : TV) (wh lim gby oby : PyV) :
    Except PyErr Unit := do
  if pyTruthy wh then
    if !(match wh with
        | .pcomp _ _ => true
        | .pcol c => c.dtype == "comparison"
        | _ => false) then
      throw (.typeError "Database.query@where must be a Column with dtype comparison")
  if pyTruthy lim then
    if !(pyIsInt lim) then
      throw (.typeError "Database.query@limit must be a positive int")
    else if pyIntVal lim ≤ 0 then
      throw (.valueError "Database.query@limit must be a positive int")
  for nc in [("groupby", gby), ("orderby", oby)] do
    if pyTruthy nc.2 then
      if !(pyIsStrOrCol nc.2) then
        throw (.typeError ("Database.query@" ++ nc.1 ++ " must be a column in @table"))
      else
        match table with
        | .ttbl t =>
          if !(← memberColList nc.2 t) then
            throw (.valueError ("Database.query@" ++ nc.1 ++ " must be a column in @table"))
        | .tstr _ => throw (.attributeError "'str' object has no attribute 'columns'")
        | .tnone => throw (.attributeError "'NoneType' object has no attribute 'columns'")

/-- `AbstractMySqlTranslator.validate_and_raise`: the sequential composition
of the method/table/fields section and the shared modifier checks on the
possibly-reassigned values. -/
def validate_and_raise (db : DbM) (esc : String → String) (method : String)
    (table : TV) (fields : FieldsV) (wh lim gby oby : PyV) (kw : Kwargs) :
    Except PyErr Unit := do
  let st ← validate_method_fields db esc method table fields wh lim gby oby kw
  shared_modifier_checks st.1 st.2.1 st.2.2.1 st.2.2.2.1 st.2.2.2.2

/-! ## `AbstractMySqlTranslator.translate`
(`pyframework/AbstractMySqlDatabase.py`, lines 587–843) -/

def translate (db : DbM) (esc : String → String) (method : String) (table : TV)
    (fields : FieldsV) (wh lim gby oby : PyV) (kw : Kwargs) :
    Except PyErr String := do
  let mut method := method
  let mut table := table
  let mut fields := fields
  let mut wh := wh
  let mut lim := lim
  let mut gby := gby
  let mut oby := oby
  let mut kw := kw
  -- resolve the table unless creating one or showing tables
  if (!(pyIn "create" method) && !(pyIn "add" method)) || !(pyIn "table" method) then
    let second ←
      if !(pyIn "show" method) then pure true
      else
        match table with
        | .tstr s => pure (!(pyIn "tables" s))
        | .ttbl _ => throw (.typeError "argument of type 'Table' is not iterable")
        | .tnone => throw (.typeError "argument of type 'NoneType' is not iterable")
    if second then
      table := (match get_table db table with | some t => TV.ttbl t | none => .tnone)
  -- per-method preprocessing
  if method == "insert" then
    wh := .pnone; gby := .pnone; oby := .pnone; lim := .pnone
  else if method == "update" then
    gby := .pnone; oby := .pnone; lim := .pnone
  else if pyIn "rename" method && pyIn "table" method then
    wh := .pnone; gby := .pnone; oby := .pnone; lim := .pnone
    if fields == .fnone && kw.toK.isSome then
      fields := kw.toK.getD .fnone
  else if pyIn "drop" method && pyIn "table" method then
    wh := .pnone; gby := .pnone; oby := .pnone; lim := .pnone
    if pyIn "temporary" method || kw.temporary.isNone then
      kw := { kw with temporary := some (pyIn "temporary" method) }
    method := "drop table"
  else if pyIn "drop" method && pyIn "column" method then
    wh := .pnone; gby := .pnone; oby := .pnone; lim := .pnone
    let t ← requireTableCols table
    fields := (match get_column t fields with | some c => .fcol c | none => .fnone)
  else if pyIn "truncate" method then
    fields := .fnone; wh := .pnone; gby := .pnone; oby := .pnone; lim := .pnone
  else if (pyIn "create" method || pyIn "add" method) && pyIn "table" method then
    wh := .pnone; gby := .pnone; oby := .pnone; lim := .pnone
    if pyIn "temporary" method || kw.temporary.isNone then
      kw := { kw with temporary := some (pyIn "temporary" method) }
    if (["if not exists", "ifnot exists", "if notexists", "ifnotexists"].any
          (fun i => pyIn i method)) || kw.clobber.isNone then
      kw := { kw with clobber := some false }
    match table with
    | .ttbl t => fields := .flist (t.columns.map FItem.icol)
    | .tstr s =>
      match fields with
      | .fstr fs => fields := .flist ((pySplitComma fs).map (fun f => FItem.istr (esc (pyStrip f))))
      | _ => pure ()
      table := .tstr (esc s)
    | .tnone => pure () -- unreachable: create/add-table skips the resolution above
  else if (pyIn "add" method || pyIn "create" method) && pyIn "column" method then
    wh := .pnone; gby := .pnone; oby := .pnone; lim := .pnone
    match fields with
    | .fstr s => fields := .fstr (esc s)
    | .fcol c => fields := .fcol { c with name := esc c.name }
    | _ => throw (.attributeError "object has no attribute 'name'")
  else if pyIn "alter" method && pyIn "column" method then
    wh := .pnone; gby := .pnone; oby := .pnone; lim := .pnone
    match fields with
    | .fmap m =>
      match m with
      | kv :: _ =>
        kw := { kw with toK := some (.fstr kv.2) }
        fields := (match kv.1 with | .ks s => .fstr s | .ki n => .fint n)
      | [] => throw .indexError -- `list(fields.values())[0]` on an empty dict
    | _ => pure ()
    match kw.toK with
    | none => throw .keyError -- `kwargs["to"]`
    | some (.fstr s) => kw := { kw with toK := some (.fstr (esc s)) }
    | some (.fcol c) => kw := { kw with toK := some (.fcol { c with name := esc c.name }) }
    | some _ => throw (.attributeError "object has no attribute 'name'")
  else if method == "distinct" || method == "select" then
    if !(isIterable fields) then
      fields := .flist [(match fields with
        | .fint n => FItem.iint n
        | .fcol c => .icol c
        | _ => .inone)]
  else if method == "count" then
    fields := .fstr "*"; oby := .pnone; lim := .pnone
  else if method == "delete" || method == "describe" then
    fields := .fnone; oby := .pnone; gby := .pnone; lim := .pnone
  -- build the query
  let mut sql : String := ""
  if method == "select" || method == "distinct" || method == "count" then
    sql := "select " ++ (if method == "distinct" || method == "count" then method ++ " " else "")
    let body ← if fields == .fstr "all" then pure "*" else pyJoinFields ", " fields
    sql := sql ++ body ++ " from " ++ reprTV table
  else if method == "delete" then
    sql := "delete from " ++ reprTV table
  else if method == "insert" then
    match fields with
    | .fmap m =>
      -- `fields[k]` for each key of `keys` (dict keys are unique)
      sql := "insert into " ++ reprTV table
        ++ " (" ++ pyJoin ", " (m.map (fun kv => reprMKey kv.1)) ++ ") "
        ++ "values (" ++ pyJoin ", " (m.map (fun kv => esc kv.2)) ++ ")"
    | _ => throw (.attributeError "object has no attribute 'keys'")
  else if method == "update" then
    match fields with
    | .fmap m =>
      sql := "update " ++ reprTV table ++ " set "
        ++ pyJoin ", " (m.map (fun kv => reprMKey kv.1 ++ " = " ++ esc kv.2))
    | _ => throw (.attributeError "object has no attribute 'items'")
  else if method == "describe" then
    sql := "describe " ++ reprTV table
  else if pyIn "drop" method && pyIn "table" method then
    sql := "drop " ++ (if kw.temporary.getD false then "temporary " else "")
      ++ "table " ++ reprTV table ++ " if exists"
  else if pyIn "drop" method && pyIn "column" method then
    sql := "alter table " ++ reprTV table ++ " drop column " ++ strFieldsV fields
  else if (pyIn "create" method || pyIn "add" method) && pyIn "table" method then
    sql := "create " ++ (if kw.temporary.getD false then "temporary " else "")
      ++ "table " ++ reprTV table
    sql := sql ++ (if !(kw.clobber.getD false) then " if not exists" else "") ++ " ("
    let items ← iterFields fields
    sql := sql ++ pyJoin ", " (items.map (fun f =>
      match f with
      | .icol c => pyReprStr c.name ++ " " ++ c.dtype
      | .istr s => s
      | .iint n => toString n
      | .inone => "None")) ++ ")"
  else if pyIn "rename" method && pyIn "table" method then
    sql := "alter table " ++ reprTV table ++ " rename " ++ reprFieldsV fields
  else if pyIn "truncate" method then
    sql := "truncate table " ++ reprTV table
  else if (pyIn "add" method || pyIn "create" method) && pyIn "column" method then
    sql := "alter table " ++ reprTV table ++ " add column "
      ++ (match fields with
          | .fcol c => pyReprStr c.name ++ " " ++ c.dtype
          | f => strFieldsV f)
    match kw.afterK with
    | some (.fstr s) =>
      if pyLower s == "first" then sql := sql ++ " first"
      else sql := sql ++ " after " ++ pyReprStr s
    | some _ => throw (.attributeError "object has no attribute 'lower'")
    | none => pure ()
  else if pyIn "alter" method && pyIn "column" method then
    sql := "alter table " ++ reprTV table ++ " change column " ++ reprFieldsV fields ++ " "
    sql := sql ++ (match kw.toK with
      | some (.fcol c) => pyReprStr c.name ++ " " ++ c.dtype
      | some f => strFieldsV f
      | none => "None") -- unreachable: the preprocessing required `kwargs["to"]`
  else if pyIn "show" method then
    -- `elif "show" in method and "tables" in table:`
    match table with
    | .tstr s =>
      if pyIn "tables" s then sql := "show tables"
      else throw (.exception method)
    | .ttbl _ => throw (.typeError "argument of type 'Table' is not iterable")
    | .tnone => throw (.typeError "argument of type 'NoneType' is not iterable")
  else
    throw (.exception method)
  -- handle extras
  if wh != .pnone then
    sql := sql ++ " where " ++ reprPyV wh
  if gby != .pnone then
    sql := sql ++ " group by " ++ reprPyV gby
  if oby != .pnone then
    sql := sql ++ " order by " ++ reprPyV oby
  if lim != .pnone then
    sql := sql ++ " limit " ++ reprPyV lim
  pure (sql ++ ";")

/-! ## Operator builders (`pyframework/AbstractDatabase.py`) and `Column.__gt__`
(`pyframework/core/Table.py` lines 452–456, `pyframework/Table.py` lines 344–348) -/

/-- An operand of a comparison builder: a real column, a string, or an int. -/
inductive Operand where
  | ocol (c : ColumnT)
  | ostr (s : String)
  | oint (n : Int)
deriving DecidableEq, Repr

/-- `repr` of an operand (a non-expression `Column.__repr__` is
`"table.name"`). -/
def reprOperand : Operand → String
  | .ocol c => reprColumnT c
  | .ostr s => pyReprStr s
  | .oint n => toString n

/-- Python truthiness of an operand (`Column.__bool__` returns `True` for a
non-comparison column). -/
def truthyOperand : Operand → Bool
  | .ocol _ => true
  | .ostr s => !s.isEmpty
  | .oint n => n != 0

/-- The expression column built by the comparison builders:
`Column((a, b), f"(...)", "comparison")` — the operand pair is stored in the
`table` field. -/
structure ExprCol where
  operands : Operand × Operand
  name : String
  dtype : String
deriving DecidableEq, Repr

/-- `AbstractSqlTranslator.gt(a, b)`:
`Column((a, b), f"({a!r} > {b!r})", "comparison")`. -/
def translator_gt (a b : Operand) : ExprCol :=
  { operands := (a, b),
    name := "(" ++ reprOperand a ++ " > " ++ reprOperand b ++ ")",
    dtype := "comparison" }

/-- `AbstractSqlTranslator.eq(a, b)`: the `if not a: a = self.null` guard
dereferences the nonexistent attribute `null` (the property is `NULL`), so a
falsy operand raises `AttributeError`; otherwise
`Column((a, b), f"({a!r} = {b!r})", "comparison")`. -/
def translator_eq (a b : Operand) : Except PyErr ExprCol :=
  if !truthyOperand a || !truthyOperand b then
    .error (.attributeError "'AbstractSqlTranslator' object has no attribute 'null'")
  else
    .ok { operands := (a, b),
          name := "(" ++ reprOperand a ++ " = " ++ reprOperand b ++ ")",
          dtype := "comparison" }

/-- `Column.__gt__(self, a)`: when `self.table` has a `db` with an `eq`
attribute (`hasDb`), delegates to `self.table.db.eq(self, a)` — the `eq`
builder, not `gt`; raises `NotImplementedError` otherwise. -/
def column_gt (hasDb : Bool) (self : ColumnT) (a : Operand) : Except PyErr ExprCol :=
  if hasDb then translator_eq (.ocol self) a
  else .error .notImplementedError

/-- `Column.__eq__(self, a)`: delegates to `self.table.db.eq(self, a)` under
the same guard. -/
def column_eq (hasDb : Bool) (self : ColumnT) (a : Operand) : Except PyErr ExprCol :=
  if hasDb then translator_eq (.ocol self) a
  else .error .notImplementedError

/-! ## The `add index` / `add unique` / `add primary` validation branch

Modelled from the spec: the branch of `validateAndRaise` that handles
`add index`, `add unique` and `add primary` belongs to the
`pyframework.core.AbstractMySqlDatabase` module, which
`pyframework/core/__init__.py` imports and
`tests/core/test_abstract_mysqldatabase.py` exercises, but whose source file is
missing from the repository (the sibling `pyframework/AbstractMySqlDatabase.py`
predates it and rejects these methods outright).  This follows the spec's §4.2
row: the column reference must resolve in the table, the optional name must be
a string of at most 64 characters, and the method keywords must imply exactly
one new-constraint category, rejecting a method that names more than one. -/

/-- The new-constraint categories a method keyword can name. -/
def constraintKeywords : List String := ["index", "unique", "primary", "foreign"]

/-- Modelled from the spec: the `add index`/`add unique`/`add primary` branch
of `validateAndRaise` (missing from `src`, see the section comment): on an open
connection, resolve the table and the column reference, reject a method naming
more than one constraint category, and check the optional `name` (a string of
at most 64 characters). -/
def validate_add_constraint (db : DbM) (method : String) (table : TV)
    (fields : FieldsV) (nameK : Option PyV) : Except PyErr Unit :=
  if !db.isOpen then
    .error (.exception "You must initiate the connection.")
  else
    match get_table db table with
    | none => .error (.valueError "Database.query@table must be a table in self.tables")
    | some t =>
      if (constraintKeywords.filter (fun k => pyIn k method)).length > 1 then
        .error (.valueError "Database.query@method must not contain multiple constraints")
      else if (get_column t fields).isNone then
        .error (.valueError "Database.query@fields must be a column in @table")
      else
        match nameK with
        | none => .ok ()
        | some (.pstr s) =>
          if s.length > 64 then
            .error (.valueError "Database.query@name cannot be over 64 characters")
          else .ok ()
        | some _ => .error (.typeError "Database.query@name must be a str")

/-! ## Statement vocabulary and concrete fixtures -/

/-- The constraint names matched by a categorical `get_constraint` query:
`"index"` matches all three categories, `"unique"`/`"primary"` match the two
uniqueness categories. -/
def catMatch (q : String) : ConsM → Bool :=
  if q == "index" then isCat3 else isCat2

/-- The category priority: primary over unique over index. -/
def prio (c : ConsM) : Nat :=
  if c.name == "primary" then 2 else if c.name == "unique" then 1 else 0

/-- A one-column table `t` with column `col int`, in an open database. -/
def tCol : ColumnT := ⟨"t", "col", "int", true, true⟩

def tTable : TableM := ⟨"t", [tCol]⟩

def db1 : DbM := ⟨true, [tTable]⟩

/-- Two columns of different tables, both without constraints. -/
def colK1 : ColumnK := ⟨0, "Table t: a int", "a", []⟩

def colK2 : ColumnK := ⟨1, "Table u: b int", "b", []⟩

/-- A column name that survives serialization: nonempty, already lower-case,
without whitespace (it would need the backquoting that `Column.__str__` does
not emit) and without a leading backquote. -/
def hygienicName (s : String) : Bool :=
  !s.data.isEmpty
  && s.data.all (fun ch => !pyIsSpace ch && ch != backquote)
  && (pyLower s == s)

/-- A dtype that survives serialization: nonempty, without edge whitespace, and
whose lower-casing contains none of the option keywords that
`Column.from_definition` scans for. -/
def hygienicDtype (s : String) : Bool :=
  (match s.data with
   | [] => false
   | ch :: _ => !pyIsSpace ch)
  && (match s.data.getLast? with
      | some e => !pyIsSpace e
      | none => false)
  && defOptions.all (fun o => !pyIn o (pyLower s))

end Pyf

namespace Pyf

/-! # Theorems for the claims -/

/-- C9: `AbstractTranslator.validate` returns `False` for every input: its body
dereferences the nonexistent attribute `validate_and_raised` (with the
undefined name `db` as argument), the resulting exception is caught by the
blanket `except` clause, and `False` is returned — `validate` never returns
`True`, even for calls `validate_and_raise` accepts. -/
theorem c9_validate_always_false (args : List String) : translator_validate args = false := rfl

/-- C4: once the `Unique` constraint's cache is materialised, `validate v`
raises an error if and only if `v` is already present in the cached value set,
and otherwise returns the constraint instance itself. -/
theorem c4_unique_validate {V : Type} [DecidableEq V] (n : String) (vs : List V)
    (results : List (List (String × V))) (v : V) :
    ((∃ e, uniqueValidate ⟨n, some vs⟩ results v = .error e) ↔ vs.contains v = true)
    ∧ (vs.contains v = false →
        uniqueValidate ⟨n, some vs⟩ results v = .ok ⟨n, some vs⟩) := by
  have key : uniqueValidate ⟨n, some vs⟩ results v
      = (if vs.contains v then .error (.valueError "is not unique")
         else .ok (⟨n, some vs⟩ : UniqueC V)) := rfl
  rw [key]
  by_cases h : v ∈ vs
  · simp [h]
  · simp [h]

/-- Witness for C4 at a concrete cache. -/
theorem c4_unique_validate_witness :
    ([1, 2] : List Int).contains 3 = false
    ∧ uniqueValidate ⟨"c", some [1, 2]⟩ [] (3 : Int) = .ok ⟨"c", some [1, 2]⟩ :=
  ⟨by decide, (c4_unique_validate "c" [1, 2] [] 3).2 (by decide)⟩

/-- C10: `a > b` produces exactly the same result as `a == b`: `Column.__gt__`
delegates to the translator's `eq` builder, so the greater-than operator yields
the equality comparison column rendered `"(a = b)"`, while the translator's own
`gt` builder would render `"(a > b)"`. -/
theorem c10_gt_is_eq (hasDb : Bool) (c : ColumnT) (a : Operand) :
    column_gt hasDb c a = column_eq hasDb c a
    ∧ (truthyOperand a = true →
        column_gt true c a =
          .ok ⟨(.ocol c, a), "(" ++ reprColumnT c ++ " = " ++ reprOperand a ++ ")", "comparison"⟩)
    ∧ (translator_gt (.ocol c) a).name
        = "(" ++ reprColumnT c ++ " > " ++ reprOperand a ++ ")" := by
  refine ⟨rfl, ?_, rfl⟩
  intro ha
  have h1 : truthyOperand (Operand.ocol c) = true := rfl
  simp [column_gt, translator_eq, h1, ha, reprOperand]

/-- Witness for C10 at a concrete column and operand. -/
theorem c10_gt_is_eq_witness :
    truthyOperand (Operand.oint 5) = true
    ∧ column_gt true tCol (.oint 5) =
        .ok ⟨(.ocol tCol, .oint 5),
             "(" ++ reprColumnT tCol ++ " = " ++ reprOperand (.oint 5) ++ ")", "comparison"⟩ :=
  ⟨by decide, (c10_gt_is_eq true tCol (.oint 5)).2.1 (by decide)⟩

/-- C7: constructing a `ForeignKey` whose target and foreign columns belong to
the same table always fails with the self-reference error, and neither column's
constraint list is modified by the failed construction. -/
theorem c7_foreign_key_self_reference (fkId idxId : Nat) (target foreign : ColumnK)
    (name : String) (h : target.tableId = foreign.tableId) :
    (foreign_key_init fkId idxId target foreign name).err
        = some "Cannot foreign key a table on itself"
    ∧ (foreign_key_init fkId idxId target foreign name).target = target
    ∧ (foreign_key_init fkId idxId target foreign name).foreign = foreign := by
  simp [foreign_key_init, h]

/-- Witness for C7: the same column used twice. -/
theorem c7_foreign_key_self_reference_witness :
    colK1.tableId = colK1.tableId
    ∧ (foreign_key_init 5 6 colK1 colK1 "").err = some "Cannot foreign key a table on itself"
    ∧ (foreign_key_init 5 6 colK1 colK1 "").target = colK1
    ∧ (foreign_key_init 5 6 colK1 colK1 "").foreign = colK1 :=
  ⟨rfl, c7_foreign_key_self_reference 5 6 colK1 colK1 "" rfl⟩

/-- C2 (amended): the five literal scenarios of the spec, with the insert
scenario as the code renders it — mapping keys pass through `repr` and are
therefore quoted (`('col')`, not `(col)`); the other four scenarios are exactly
as listed.  `escape_string` (an abstract dialect hook) is instantiated with the
identity, as in the repository's own translator tests. -/
theorem c2_literal_scenarios :
    translate db1 (fun s => s) "select" (.tstr "t") (.fstr "all")
        .pnone .pnone .pnone .pnone Kwargs.empty = .ok "select * from 't';"
    ∧ translate db1 (fun s => s) "select" (.tstr "t") (.fstr "all")
        .pnone .pnone (.pcol tCol) .pnone Kwargs.empty
        = .ok "select * from 't' group by t.col;"
    ∧ translate db1 (fun s => s) "insert" (.tstr "t") (.fmap [(.ks "col", "v")])
        .pnone .pnone .pnone .pnone Kwargs.empty
        = .ok "insert into 't' ('col') values (v);"
    ∧ translate db1 (fun s => s) "create table" (.tstr "t") (.fstr "col int")
        .pnone .pnone .pnone .pnone Kwargs.empty
        = .ok "create table 't' if not exists (col int);"
    ∧ translate db1 (fun s => s) "drop table" (.tstr "t") .fnone
        .pnone .pnone .pnone .pnone Kwargs.empty
        = .ok "drop table 't' if exists;" :=
  ⟨rfl, rfl, rfl, rfl, rfl⟩

/-- Counterexample for C2 as stated: the insert scenario yields `('col')`
with the key quoted by `repr`, not the claimed `(col)`. -/
theorem c2_insert_counterexample :
    translate db1 (fun s => s) "insert" (.tstr "t") (.fmap [(.ks "col", "v")])
        .pnone .pnone .pnone .pnone Kwargs.empty
      = .ok "insert into 't' ('col') values (v);"
    ∧ "insert into 't' ('col') values (v);" ≠ "insert into 't' (col) values (v);" :=
  ⟨rfl, by decide⟩

/-- Counterexample for C3 as stated: `limit = 0` is an int that is not
positive, yet the guard `if limit:` skips both checks for the falsy value `0`
and `validate_and_raise` accepts the call. -/
theorem c3_limit_zero_accepted :
    pyIsInt (.pint 0) = true ∧ pyIntVal (.pint 0) ≤ 0
    ∧ validate_and_raise db1 (fun s => s) "select" (.tstr "t") (.fstr "all")
        .pnone (.pint 0) .pnone .pnone Kwargs.empty = .ok () :=
  ⟨rfl, by decide, rfl⟩

/-- The shared `@limit` check rejects: whenever the modifier values reaching
`shared_modifier_checks` pass the `@where` check and carry a truthy limit that
is not a positive int, the checks raise — `TypeError` for a non-int,
`ValueError` for a non-positive int. -/
theorem shared_limit_reject (table : TV) (wh lim gby oby : PyV)
    (hwh : pyTruthy wh = true →
      (match wh with
       | PyV.pcomp _ _ => true
       | PyV.pcol c => c.dtype == "comparison"
       | _ => false) = true)
    (htr : pyTruthy lim = true)
    (hbad : pyIsInt lim = true → pyIntVal lim ≤ 0) :
    shared_modifier_checks table wh lim gby oby
      = .error (if pyIsInt lim = true then
          PyErr.valueError "Database.query@limit must be a positive int"
        else PyErr.typeError "Database.query@limit must be a positive int") := by
  unfold shared_modifier_checks
  by_cases hw : pyTruthy wh = true
  · have hcomp := hwh hw
    by_cases hi : pyIsInt lim = true
    · have hle := hbad hi
      simp [hw, hcomp, htr, hi, hle]
      rfl
    · have hi' : pyIsInt lim = false := by revert hi; cases pyIsInt lim <;> simp
      simp [hw, hcomp, htr, hi']
      rfl
  · have hw' : pyTruthy wh = false := by revert hw; cases pyTruthy wh <;> simp
    by_cases hi : pyIsInt lim = true
    · have hle := hbad hi
      simp [hw', htr, hi, hle]
      rfl
    · have hi' : pyIsInt lim = false := by revert hi; cases pyIsInt lim <;> simp
      simp [hw', htr, hi']
      rfl

/-- C3 (amended): `validate_and_raise` checks the limit only when it survives
the method branch and is truthy.  Part 1, over *every* call: whenever the
method/table/fields section succeeds and leaves a truthy limit in place (and
the `@where` check passes), a non-int limit raises the structural `TypeError`
and a non-positive int raises the semantic `ValueError`, the structural check
coming first.  Parts 2 and 3: the `delete` and `describe`/`truncate` branches
reassign `limit = None` before the shared check, so those calls accept *every*
limit value — including `-1` and `"baz"`.  A falsy limit (`None`, `0`,
`False`, `""`) is always accepted unchecked, as the separate counterexample
shows.  (The third hypothesis of part 1 excludes a non-expression column that
was nevertheless declared with the `"comparison"` dtype, whose Python
truthiness would depend on operands the column model does not carry.) -/
theorem c3_limit_check :
    (∀ (db : DbM) (esc : String → String) (method : String) (table : TV)
       (fields : FieldsV) (wh lim gby oby : PyV) (kw : Kwargs)
       (t' : TV) (w' l' g' o' : PyV),
      validate_method_fields db esc method table fields wh lim gby oby kw
        = .ok (t', w', l', g', o') →
      (pyTruthy w' = true →
        (match w' with
         | PyV.pcomp _ _ => true
         | PyV.pcol c => c.dtype == "comparison"
         | _ => false) = true) →
      (∀ c, l' = PyV.pcol c → c.dtype ≠ "comparison") →
      pyTruthy l' = true →
      (pyIsInt l' = true → pyIntVal l' ≤ 0) →
      validate_and_raise db esc method table fields wh lim gby oby kw
        = .error (if pyIsInt l' = true then
            PyErr.valueError "Database.query@limit must be a positive int"
          else PyErr.typeError "Database.query@limit must be a positive int"))
  ∧ (∀ lim : PyV,
      validate_and_raise db1 (fun s => s) "delete" (.tstr "t") .fnone
        .pnone lim .pnone .pnone Kwargs.empty = .ok ())
  ∧ (∀ lim : PyV,
      validate_and_raise db1 (fun s => s) "truncate" (.tstr "t") .fnone
        .pnone lim .pnone .pnone Kwargs.empty = .ok ()) := by
  refine ⟨?_, ?_, ?_⟩
  · intro db esc method table fields wh lim gby oby kw t' w' l' g' o' hbr hwh hcav htr hbad
    have hok : ∀ {α β : Type} (a : α) (f : α → Except PyErr β),
        ((Except.ok a : Except PyErr α) >>= f) = f a := fun _ _ => rfl
    unfold validate_and_raise
    rw [hbr, hok]
    exact shared_limit_reject t' w' l' g' o' hwh htr hbad
  · intro lim
    rfl
  · intro lim
    rfl

/-- Witness for C3: the select-`"all"`-from-`t` branch leaves the limit in
place, so `limit = "baz"` raises the `TypeError`; the `delete` and `truncate`
branches discard it, so `limit = -1` and `limit = "baz"` are accepted there. -/
theorem c3_limit_check_witness :
    validate_method_fields db1 (fun s => s) "select" (.tstr "t") (.fstr "all")
        .pnone (.pstr "baz") .pnone .pnone Kwargs.empty
      = .ok (.ttbl tTable, .pnone, .pstr "baz", .pnone, .pnone)
    ∧ validate_and_raise db1 (fun s => s) "select" (.tstr "t") (.fstr "all")
        .pnone (.pstr "baz") .pnone .pnone Kwargs.empty
      = .error (.typeError "Database.query@limit must be a positive int")
    ∧ validate_and_raise db1 (fun s => s) "delete" (.tstr "t") .fnone
        .pnone (.pint (-1)) .pnone .pnone Kwargs.empty = .ok ()
    ∧ validate_and_raise db1 (fun s => s) "truncate" (.tstr "t") .fnone
        .pnone (.pstr "baz") .pnone .pnone Kwargs.empty = .ok () := by
  refine ⟨rfl, ?_, c3_limit_check.2.1 (.pint (-1)), c3_limit_check.2.2 (.pstr "baz")⟩
  have h := c3_limit_check.1 db1 (fun s => s) "select" (.tstr "t") (.fstr "all")
      .pnone (.pstr "baz") .pnone .pnone Kwargs.empty
      (.ttbl tTable) .pnone (.pstr "baz") .pnone .pnone
      rfl (by intro h; exact absurd h (by decide)) (by intro c hc; cases hc)
      rfl (by intro h; exact absurd h (by decide))
  exact h.trans rfl

/-! ### Lemmas about `get_constraint`'s collapsing -/

theorem filter_not_self (P : ConsM → Bool) (l : List ConsM) :
    (l.filter (fun x => !P x)).filter P = [] := by
  induction l with
  | nil => rfl
  | cons a t ih => by_cases h : P a <;> simp [List.filter_cons, h, ih]

theorem pySortNameFirst_perm (nm : String) (l : List ConsM) :
    List.Perm (pySortNameFirst nm l) l := by
  have h := List.filter_append_perm (fun c : ConsM => c.name == nm) l
  simpa [pySortNameFirst, bne] using h

theorem pySortNameFirst_ne_nil {nm : String} {l : List ConsM} (h : l ≠ []) :
    pySortNameFirst nm l ≠ [] := by
  intro hnil
  have hp := pySortNameFirst_perm nm l
  rw [hnil] at hp
  exact h hp.symm.eq_nil

theorem mem_sortIndexRet {x : ConsM} {ret : List ConsM} :
    x ∈ sortIndexRet ret ↔ x ∈ ret := by
  unfold sortIndexRet
  split_ifs <;> first | exact (pySortNameFirst_perm _ _).mem_iff | exact Iff.rfl

theorem sortIndexRet_ne_nil {ret : List ConsM} (h : ret ≠ []) :
    sortIndexRet ret ≠ [] := by
  unfold sortIndexRet
  split_ifs <;> first | exact pySortNameFirst_ne_nil h | exact h

theorem head_filter_of_any {p : ConsM → Bool} {l : List ConsM} (h : l.any p = true) :
    ∃ c tl, l.filter p = c :: tl ∧ p c = true := by
  have hx : ∃ x ∈ l, p x := by simpa using h
  obtain ⟨x, hxl, hpx⟩ := hx
  have hmem : x ∈ l.filter p := List.mem_filter.mpr ⟨hxl, hpx⟩
  cases hf : l.filter p with
  | nil => rw [hf] at hmem; cases hmem
  | cons c tl =>
    refine ⟨c, tl, rfl, ?_⟩
    have hc : c ∈ l.filter p := by rw [hf]; exact List.mem_cons_self c tl
    exact (List.mem_filter.mp hc).2

theorem prio_le_two (x : ConsM) : prio x ≤ 2 := by
  unfold prio; split_ifs <;> omega

theorem prio_of_primary {x : ConsM} (h : x.name = "primary") : prio x = 2 := by
  simp [prio, h]

theorem prio_le_one {x : ConsM} (h : ¬x.name = "primary") : prio x ≤ 1 := by
  unfold prio
  rw [if_neg (by simpa using h)]
  split_ifs <;> omega

theorem prio_zero {x : ConsM} (hp : ¬x.name = "primary") (hu : ¬x.name = "unique") :
    prio x = 0 := by
  unfold prio
  rw [if_neg (by simpa using hp), if_neg (by simpa using hu)]

theorem sortIndexRet_head_prio {ret : List ConsM} {c : ConsM} {tl : List ConsM}
    (hh : sortIndexRet ret = c :: tl) : ∀ x ∈ ret, prio x ≤ prio c := by
  intro x hx
  unfold sortIndexRet at hh
  by_cases hp : ret.any (fun c => c.name == "primary") = true
  · rw [if_pos hp] at hh
    obtain ⟨c0, tl0, hf, hpc⟩ := head_filter_of_any hp
    unfold pySortNameFirst at hh
    rw [hf] at hh
    have hcc : c = c0 := ((List.cons_eq_cons.mp hh).1).symm
    have hcp : c.name = "primary" := by rw [hcc]; simpa using hpc
    rw [prio_of_primary hcp]
    exact prio_le_two x
  · rw [if_neg hp] at hh
    have hnp : ∀ y ∈ ret, ¬y.name = "primary" := by
      intro y hy hname
      simp only [List.any_eq_true, beq_iff_eq] at hp
      exact hp ⟨y, hy, hname⟩
    by_cases hu : ret.any (fun c => c.name == "unique") = true
    · rw [if_pos hu] at hh
      obtain ⟨c0, tl0, hf, hpc⟩ := head_filter_of_any hu
      unfold pySortNameFirst at hh
      rw [hf] at hh
      have hcc : c = c0 := ((List.cons_eq_cons.mp hh).1).symm
      have hcu : c.name = "unique" := by rw [hcc]; simpa using hpc
      have hpc1 : prio c = 1 := by simp [prio, hcu]
      rw [hpc1]
      exact prio_le_one (hnp x hx)
    · rw [if_neg hu] at hh
      have hnu : ∀ y ∈ ret, ¬y.name = "unique" := by
        intro y hy hname
        simp only [List.any_eq_true, beq_iff_eq] at hu
        exact hu ⟨y, hy, hname⟩
      rw [prio_zero (hnp x hx) (hnu x hx)]
      exact Nat.zero_le _

theorem sortUniqueRet_head_prio {ret : List ConsM} {c : ConsM} {tl : List ConsM}
    (hmem : ∀ x ∈ ret, isCat2 x = true)
    (hh : sortUniqueRet ret = c :: tl) : ∀ x ∈ ret, prio x ≤ prio c := by
  intro x hx
  cases ret with
  | nil => cases hx
  | cons a rest =>
    simp only [sortUniqueRet] at hh
    by_cases hcond :
        ((a :: rest).any (fun c => c.name == "primary") && !(a.name == "primary")) = true
    · rw [if_pos hcond] at hh
      have hp : (a :: rest).any (fun c => c.name == "primary") = true := by
        have := hcond
        rw [Bool.and_eq_true] at this
        exact this.1
      obtain ⟨c0, tl0, hf, hpc⟩ := head_filter_of_any hp
      unfold pySortNameFirst at hh
      rw [hf] at hh
      have hcc : c = c0 := ((List.cons_eq_cons.mp hh).1).symm
      have hcp : c.name = "primary" := by rw [hcc]; simpa using hpc
      rw [prio_of_primary hcp]
      exact prio_le_two x
    · rw [if_neg hcond] at hh
      have hca : c = a := ((List.cons_eq_cons.mp hh).1).symm
      by_cases hp : (a :: rest).any (fun c => c.name == "primary") = true
      · -- the guard failed although a primary exists: `a` itself is the primary
        have hcf : ((a :: rest).any (fun c => c.name == "primary")
            && !(a.name == "primary")) = false := Bool.eq_false_iff.mpr hcond
        rw [hp] at hcf
        have hap : a.name = "primary" := by simpa using hcf
        have hcp : c.name = "primary" := by rw [hca]; exact hap
        rw [prio_of_primary hcp]
        exact prio_le_two x
      · have hnp : ∀ y ∈ a :: rest, ¬y.name = "primary" := by
          intro y hy hname
          simp only [List.any_eq_true, beq_iff_eq] at hp
          exact hp ⟨y, hy, hname⟩
        have hcu : c.name = "unique" := by
          have h2 := hmem a (List.mem_cons_self a rest)
          have hna := hnp a (List.mem_cons_self a rest)
          rw [hca]
          simp only [isCat2, Bool.or_eq_true, beq_iff_eq] at h2
          tauto
        have hpc1 : prio c = 1 := by simp [prio, hcu]
        rw [hpc1]
        exact prio_le_one (hnp x hx)

theorem gc_index_nil {cs : List ConsM} (h : cs.filter isCat3 = []) :
    get_constraint "index" cs = (.noneR, cs) := by
  unfold get_constraint
  rw [h]
  rfl

theorem gc_index_single {cs : List ConsM} {c : ConsM} (h : cs.filter isCat3 = [c]) :
    get_constraint "index" cs = (.found c, cs) := by
  unfold get_constraint
  rw [h]
  rfl

theorem gc_index_multi {cs : List ConsM} {a b : ConsM} {rest : List ConsM}
    (h : cs.filter isCat3 = a :: b :: rest) :
    get_constraint "index" cs
      = (match sortIndexRet (a :: b :: rest) with
         | c :: _ => (.found c, cs.filter (fun x => !isCat3 x) ++ [c])
         | [] => (.noneR, cs)) := by
  unfold get_constraint
  rw [h]
  rfl

theorem gc_cat2_nil {q : String} (hq : q = "unique" ∨ q = "primary")
    {cs : List ConsM} (h : cs.filter isCat2 = []) :
    get_constraint q cs = (.noneR, cs) := by
  rcases hq with hq | hq <;> subst hq <;> unfold get_constraint <;> rw [h] <;> rfl

theorem gc_cat2_single {q : String} (hq : q = "unique" ∨ q = "primary")
    {cs : List ConsM} {c : ConsM} (h : cs.filter isCat2 = [c]) :
    get_constraint q cs = (.found c, cs) := by
  rcases hq with hq | hq <;> subst hq <;> unfold get_constraint <;> rw [h] <;> rfl

theorem gc_cat2_multi {q : String} (hq : q = "unique" ∨ q = "primary")
    {cs : List ConsM} {a b : ConsM} {rest : List ConsM}
    (h : cs.filter isCat2 = a :: b :: rest) :
    get_constraint q cs
      = (match sortUniqueRet (a :: b :: rest) with
         | c :: _ => (.found c, cs.filter (fun x => !isCat2 x) ++ [c])
         | [] => (.noneR, cs)) := by
  rcases hq with hq | hq <;> subst hq <;> unfold get_constraint <;> rw [h] <;> rfl

theorem sortUniqueRet_ne_nil {ret : List ConsM} (h : ret ≠ []) :
    sortUniqueRet ret ≠ [] := by
  cases ret with
  | nil => exact absurd rfl h
  | cons a rest =>
    simp only [sortUniqueRet]
    split_ifs with hcond
    · exact pySortNameFirst_ne_nil (by simp)
    · simp

theorem mem_sortUniqueRet {x : ConsM} {ret : List ConsM} :
    x ∈ sortUniqueRet ret ↔ x ∈ ret := by
  cases ret with
  | nil => simp [sortUniqueRet]
  | cons a rest =>
    simp only [sortUniqueRet]
    split_ifs <;> first | exact (pySortNameFirst_perm _ _).mem_iff | exact Iff.rfl

/-- C6: for a categorical argument (`"index"`, `"unique"`, `"primary"`),
`get_constraint` is idempotent — a second call returns the same surviving
constraint and leaves the list unchanged — and after any call the list holds at
most one constraint of the queried category, the kept one having the highest
priority (primary over unique over index) among the original matches,
regardless of insertion order. -/
theorem c6_get_constraint_idempotent (q : String) (cs : List ConsM)
    (hq : q ∈ ["index", "unique", "primary"]) :
    get_constraint q (get_constraint q cs).2 = get_constraint q cs
    ∧ ((get_constraint q cs).2.filter (catMatch q)).length ≤ 1
    ∧ ∀ c, (get_constraint q cs).1 = .found c →
        c ∈ cs.filter (catMatch q) ∧ ∀ c' ∈ cs.filter (catMatch q), prio c' ≤ prio c := by
  have hq3 : q = "index" ∨ q = "unique" ∨ q = "primary" := by simpa using hq
  rcases hq3 with hq3 | hq3
  · -- q = "index"
    subst hq3
    have hcm : catMatch "index" = isCat3 := rfl
    rw [hcm]
    rcases h : cs.filter isCat3 with _ | ⟨a, _ | ⟨b, rest⟩⟩
    · rw [gc_index_nil h]
      exact ⟨gc_index_nil h, by simp [h], fun c hc => by cases hc⟩
    · rw [gc_index_single h]
      refine ⟨gc_index_single h, by simp [h], fun c0 hc => ?_⟩
      have hca : c0 = a := by cases hc; rfl
      subst hca
      refine ⟨List.mem_singleton.mpr rfl, fun c' hc' => ?_⟩
      have h2 : c' = c0 := by simpa using hc'
      rw [h2]
    · have hsne := @sortIndexRet_ne_nil (a :: b :: rest) (by simp)
      obtain ⟨c, tl, hsort⟩ : ∃ c tl, sortIndexRet (a :: b :: rest) = c :: tl := by
        cases hs : sortIndexRet (a :: b :: rest) with
        | nil => exact absurd hs hsne
        | cons c tl => exact ⟨c, tl, rfl⟩
      have hgc : get_constraint "index" cs
          = (.found c, cs.filter (fun x => !isCat3 x) ++ [c]) := by
        rw [gc_index_multi h, hsort]
      have hcmemL : c ∈ a :: b :: rest :=
        mem_sortIndexRet.mp (hsort ▸ List.mem_cons_self c tl)
      have hcf : c ∈ cs.filter isCat3 := by rw [h]; exact hcmemL
      have hc3 : isCat3 c = true := List.of_mem_filter hcf
      have hl1 : (cs.filter (fun x => !isCat3 x) ++ [c]).filter isCat3 = [c] := by
        rw [List.filter_append, filter_not_self]
        simp [hc3]
      rw [hgc]
      refine ⟨gc_index_single hl1, by simp [hl1], fun c' hc' => ?_⟩
      have hcc : c' = c := by cases hc'; rfl
      subst hcc
      exact ⟨hcmemL, fun x hx => sortIndexRet_head_prio hsort x hx⟩
  · -- q = "unique" or "primary"
    have hcm : catMatch q = isCat2 := by
      rcases hq3 with hq3 | hq3 <;> subst hq3 <;> rfl
    rw [hcm]
    rcases h : cs.filter isCat2 with _ | ⟨a, _ | ⟨b, rest⟩⟩
    · rw [gc_cat2_nil hq3 h]
      exact ⟨gc_cat2_nil hq3 h, by simp [h], fun c hc => by cases hc⟩
    · rw [gc_cat2_single hq3 h]
      refine ⟨gc_cat2_single hq3 h, by simp [h], fun c0 hc => ?_⟩
      have hca : c0 = a := by cases hc; rfl
      subst hca
      refine ⟨List.mem_singleton.mpr rfl, fun c' hc' => ?_⟩
      have h2 : c' = c0 := by simpa using hc'
      rw [h2]
    · have hsne := @sortUniqueRet_ne_nil (a :: b :: rest) (by simp)
      obtain ⟨c, tl, hsort⟩ : ∃ c tl, sortUniqueRet (a :: b :: rest) = c :: tl := by
        cases hs : sortUniqueRet (a :: b :: rest) with
        | nil => exact absurd hs hsne
        | cons c tl => exact ⟨c, tl, rfl⟩
      have hgc : get_constraint q cs
          = (.found c, cs.filter (fun x => !isCat2 x) ++ [c]) := by
        rw [gc_cat2_multi hq3 h, hsort]
      have hcmemL : c ∈ a :: b :: rest :=
        mem_sortUniqueRet.mp (hsort ▸ List.mem_cons_self c tl)
      have hcf : c ∈ cs.filter isCat2 := by rw [h]; exact hcmemL
      have hc2 : isCat2 c = true := List.of_mem_filter hcf
      have hl1 : (cs.filter (fun x => !isCat2 x) ++ [c]).filter isCat2 = [c] := by
        rw [List.filter_append, filter_not_self]
        simp [hc2]
      rw [hgc]
      refine ⟨gc_cat2_single hq3 hl1, by simp [hl1], fun c' hc' => ?_⟩
      have hcc : c' = c := by cases hc'; rfl
      subst hcc
      refine ⟨hcmemL, fun x hx => ?_⟩
      refine sortUniqueRet_head_prio ?_ hsort x hx
      intro y hy
      have hyf : y ∈ cs.filter isCat2 := by rw [h]; exact hy
      exact List.of_mem_filter hyf

/-- Counterexample for C8 as stated: a `ForeignKey` explicitly named
`"index"` is found by `get_constraint("index")` on the foreign column, so no
`Index` is auto-attached even though the foreign column carried no
index-category constraint before the construction. -/
theorem c8_fk_named_index :
    (foreign_key_init 10 11 colK1 colK2 "index").err = none
    ∧ colK2.constraints.filter isCat3 = []
    ∧ (foreign_key_init 10 11 colK1 colK2 "index").indexAdded = false := by
  refine ⟨rfl, rfl, rfl⟩

/-- C8 (amended): a successful `ForeignKey` construction auto-attaches a new
`Index` to the foreign column if and only if the foreign column does not
already carry an index-category constraint (one named `index`, `unique` or
`primary`) *and* the foreign key's own final name is not itself one of those
categorical names (the appended foreign key is visible to the
`get_constraint("index")` probe). -/
theorem c8_auto_index_iff (fkId idxId : Nat) (target foreign : ColumnK) (name : String)
    (h : target.tableId ≠ foreign.tableId) :
    (foreign_key_init fkId idxId target foreign name).err = none
    ∧ ((foreign_key_init fkId idxId target foreign name).indexAdded = true
        ↔ (foreign.constraints.filter isCat3 = []
            ∧ nameIsCat3 (fkFinalName target foreign name) = false)) := by
  have hbeq : (target.tableId == foreign.tableId) = false := by
    simpa using h
  set fk : ConsM := ⟨fkId, "ForeignKey", fkFinalName target foreign name⟩ with hfkdef
  have hfilter : (foreign.constraints ++ [fk]).filter isCat3
      = foreign.constraints.filter isCat3 ++ [fk].filter isCat3 := List.filter_append ..
  rcases hf : (foreign.constraints ++ [fk]).filter isCat3 with _ | ⟨a, _ | ⟨b, rest⟩⟩
  · -- no categorical match: an Index is attached
    have hgc := gc_index_nil hf
    have h2 := List.append_eq_nil.mp (hfilter ▸ hf)
    have hfc : foreign.constraints.filter isCat3 = [] := h2.1
    have hnc : nameIsCat3 (fkFinalName target foreign name) = false := by
      have h3 : [fk].filter isCat3 = [] := h2.2
      by_cases hcat : isCat3 fk = true
      · rw [List.filter_cons, if_pos hcat] at h3
        cases h3
      · simpa [isCat3, hfkdef] using hcat
    refine ⟨?_, ?_⟩
    · simp [foreign_key_init, hbeq, ← hfkdef, hgc]
    · have hidx : (foreign_key_init fkId idxId target foreign name).indexAdded = true := by
        simp [foreign_key_init, hbeq, ← hfkdef, hgc]
      rw [hidx]
      simp [hfc, hnc]
  · -- exactly one match: the probe finds it, no Index attached
    have hgc := gc_index_single hf
    refine ⟨?_, ?_⟩
    · simp [foreign_key_init, hbeq, ← hfkdef, hgc]
    · have hidx : (foreign_key_init fkId idxId target foreign name).indexAdded = false := by
        simp [foreign_key_init, hbeq, ← hfkdef, hgc]
      rw [hidx]
      simp only [Bool.false_eq_true, false_iff, not_and]
      intro h1 h2
      rw [hfilter, h1] at hf
      have h3 : [fk].filter isCat3 = [] := by
        rw [List.filter_cons, if_neg (by simpa [isCat3, hfkdef] using h2)]
        rfl
      rw [h3] at hf
      cases hf
  · -- several matches: the probe finds the kept one, no Index attached
    have hsne := @sortIndexRet_ne_nil (a :: b :: rest) (by simp)
    obtain ⟨c, tl, hsort⟩ : ∃ c tl, sortIndexRet (a :: b :: rest) = c :: tl := by
      cases hs : sortIndexRet (a :: b :: rest) with
      | nil => exact absurd hs hsne
      | cons c tl => exact ⟨c, tl, rfl⟩
    have hgc := gc_index_multi hf
    rw [hsort] at hgc
    refine ⟨?_, ?_⟩
    · simp [foreign_key_init, hbeq, ← hfkdef, hgc]
    · have hidx : (foreign_key_init fkId idxId target foreign name).indexAdded = false := by
        simp [foreign_key_init, hbeq, ← hfkdef, hgc]
      rw [hidx]
      simp only [Bool.false_eq_true, false_iff, not_and]
      intro h1 h2
      rw [hfilter, h1] at hf
      have h3 : [fk].filter isCat3 = [] := by
        rw [List.filter_cons, if_neg (by simpa [isCat3, hfkdef] using h2)]
        rfl
      rw [h3] at hf
      cases hf

/-- Witness for C8 at concrete columns: with no prior constraint and a default
name, the Index is attached. -/
theorem c8_auto_index_iff_witness :
    (foreign_key_init 10 11 colK1 colK2 "").err = none
    ∧ ((foreign_key_init 10 11 colK1 colK2 "").indexAdded = true
        ↔ (colK2.constraints.filter isCat3 = []
            ∧ nameIsCat3 (fkFinalName colK1 colK2 "") = false)) :=
  c8_auto_index_iff 10 11 colK1 colK2 "" (by decide)

/-- C1: on an open connection, for a call with method `add index`, `add unique`
or `add primary` whose column reference resolves in the table, the (spec-
modelled) validator accepts the call when the optional name is absent or is a
string of at most 64 characters; it rejects a string name longer than 64
characters and a name of non-string type; and it rejects any method naming more
than one new-constraint category. -/
theorem c1_add_constraint_validation (db : DbM) (table : TV) (fields : FieldsV)
    (t : TableM) (hopen : db.isOpen = true) (ht : get_table db table = some t)
    (hcol : (get_column t fields).isSome = true)
    (method : String) (hm : method ∈ ["add index", "add unique", "add primary"])
    (nameK : Option PyV) :
    ((nameK = none ∨ ∃ s, nameK = some (.pstr s) ∧ s.length ≤ 64) →
        validate_add_constraint db method table fields nameK = .ok ())
    ∧ (∀ s, nameK = some (.pstr s) → s.length > 64 →
        validate_add_constraint db method table fields nameK
          = .error (.valueError "Database.query@name cannot be over 64 characters"))
    ∧ (∀ v, nameK = some v → (∀ s, v ≠ PyV.pstr s) →
        validate_add_constraint db method table fields nameK
          = .error (.typeError "Database.query@name must be a str"))
    ∧ (∀ method' nameK',
        1 < (constraintKeywords.filter (fun k => pyIn k method')).length →
        validate_add_constraint db method' table fields nameK'
          = .error (.valueError "Database.query@method must not contain multiple constraints")) := by
  obtain ⟨c, hc⟩ := Option.isSome_iff_exists.mp hcol
  have hcats : (constraintKeywords.filter (fun k => pyIn k method)).length = 1 := by
    have hm3 : method = "add index" ∨ method = "add unique" ∨ method = "add primary" := by
      simpa using hm
    rcases hm3 with hm3 | hm3 | hm3 <;> subst hm3 <;> rfl
  have hbase : ∀ nk, validate_add_constraint db method table fields nk
      = (match nk with
         | none => .ok ()
         | some (.pstr s) =>
           if s.length > 64 then
             .error (.valueError "Database.query@name cannot be over 64 characters")
           else .ok ()
         | some _ => .error (.typeError "Database.query@name must be a str")) := by
    intro nk
    unfold validate_add_constraint
    simp only [hopen, ht, hcats, hc]
    rfl
  refine ⟨?_, ?_, ?_, ?_⟩
  · rintro (hn | ⟨s, hn, hlen⟩)
    · rw [hbase, hn]
    · rw [hbase, hn]
      show (if s.length > 64 then
          Except.error (PyErr.valueError "Database.query@name cannot be over 64 characters")
        else Except.ok ()) = Except.ok ()
      rw [if_neg (by omega)]
  · intro s hn hlen
    rw [hbase, hn]
    show (if s.length > 64 then
        Except.error (PyErr.valueError "Database.query@name cannot be over 64 characters")
      else Except.ok ())
      = Except.error (.valueError "Database.query@name cannot be over 64 characters")
    rw [if_pos (by omega)]
  · intro v hn hv
    rw [hbase, hn]
    cases v with
    | pstr s => exact absurd rfl (hv s)
    | pnone => rfl
    | pbool b => rfl
    | pint n => rfl
    | pcol c => rfl
    | pcomp s b => rfl
  · intro method' nameK' hlen
    unfold validate_add_constraint
    simp [hopen, ht, hlen]

/-- Witness for C1 at a concrete database and call. -/
theorem c1_add_constraint_validation_witness :
    validate_add_constraint db1 "add index" (.tstr "t") (.fstr "col")
        (some (.pstr "nm")) = .ok () :=
  (c1_add_constraint_validation db1 (.tstr "t") (.fstr "col") tTable rfl rfl rfl
      "add index" (by decide) (some (.pstr "nm"))).1
    (Or.inr ⟨"nm", rfl, by decide⟩)

/-! ### Lemmas for the column-definition round trip (C5) -/

theorem strData_append (a b : String) : (a ++ b).data = a.data ++ b.data := rfl

theorem takeWhile_append_all {p : Char → Bool} {l m : List Char}
    (h : ∀ c ∈ l, p c = true) :
    (l ++ m).takeWhile p = l ++ m.takeWhile p := by
  induction l with
  | nil => simp
  | cons a t ih =>
    have ha : p a = true := h a (List.mem_cons_self a t)
    have ih' := ih (fun c hc => h c (List.mem_cons_of_mem a hc))
    simp [List.takeWhile_cons, ha, ih']

theorem dropWhile_head_no {p : Char → Bool} {l : List Char}
    (h : ∀ a, l.head? = some a → p a = false) :
    l.dropWhile p = l := by
  cases l with
  | nil => rfl
  | cons a t => simp [List.dropWhile_cons, h a rfl]

theorem stripL_eq_self {l : List Char}
    (hhead : ∀ a, l.head? = some a → pyIsSpace a = false)
    (hlast : ∀ a, l.getLast? = some a → pyIsSpace a = false) :
    stripL l = l := by
  unfold stripL
  rw [dropWhile_head_no hhead]
  rw [dropWhile_head_no (fun a ha => hlast a (by rwa [List.head?_reverse] at ha))]
  exact l.reverse_reverse

theorem pySplitNone1_simple (n d : String)
    (hn_ne : n.data ≠ []) (hn_ws : ∀ c ∈ n.data, pyIsSpace c = false)
    (hd_ne : d.data ≠ []) (hd_head : ∀ a, d.data.head? = some a → pyIsSpace a = false) :
    pySplitNone1 ⟨n.data ++ ' ' :: d.data⟩ = some (n, d) := by
  have hdw : (n.data ++ ' ' :: d.data).dropWhile pyIsSpace = n.data ++ ' ' :: d.data := by
    apply dropWhile_head_no
    intro a ha
    cases hnd : n.data with
    | nil => exact absurd hnd hn_ne
    | cons c0 n' =>
      rw [hnd] at ha
      have hac : c0 = a := by simpa using ha
      rw [← hac]
      exact hn_ws c0 (hnd ▸ List.mem_cons_self c0 n')
  have htk : (n.data ++ ' ' :: d.data).takeWhile (fun c => !pyIsSpace c) = n.data := by
    rw [takeWhile_append_all (fun c hc => by simp [hn_ws c hc])]
    have hsp : ((' ' :: d.data).takeWhile (fun c => !pyIsSpace c)) = [] := by
      simp [List.takeWhile_cons, pyIsSpace]
    rw [hsp, List.append_nil]
  have hdr : ((n.data ++ ' ' :: d.data).drop n.data.length).dropWhile pyIsSpace
      = d.data := by
    rw [List.drop_left]
    have h1 : ((' ' :: d.data).dropWhile pyIsSpace) = d.data.dropWhile pyIsSpace := by
      simp [List.dropWhile_cons, pyIsSpace]
    rw [h1, dropWhile_head_no hd_head]
  show (let l := (n.data ++ ' ' :: d.data).dropWhile pyIsSpace
        let tok := l.takeWhile (fun c => !pyIsSpace c)
        let rest := (l.drop tok.length).dropWhile pyIsSpace
        if tok.isEmpty || rest.isEmpty then none else some (⟨tok⟩, ⟨rest⟩))
      = some (n, d)
  simp only [hdw, htk, hdr]
  rw [if_neg (by
    simp only [Bool.or_eq_true, List.isEmpty_iff]
    rintro (h | h)
    · exact hn_ne h
    · exact hd_ne h)]

/-- The core of the amended C5: parsing `name ++ " " ++ dtype` for a hygienic
name and dtype yields exactly that name and dtype with every option at its
default. -/
theorem parse_simple (n d : String)
    (hn : hygienicName n = true) (hd : hygienicDtype d = true) :
    from_definition (n ++ " " ++ d)
      = .ok (columnInit n d true none true false false false false "") := by
  -- unpack the hygiene conditions
  rw [hygienicName, Bool.and_eq_true, Bool.and_eq_true] at hn
  obtain ⟨⟨hne0, hall⟩, hlowb⟩ := hn
  have hn_ne : n.data ≠ [] := by
    simpa [List.isEmpty_iff] using hne0
  have hn_all : ∀ c ∈ n.data, pyIsSpace c = false ∧ (c == backquote) = false := by
    intro c hc
    have h := (List.all_eq_true.mp hall) c hc
    rw [Bool.and_eq_true] at h
    exact ⟨by simpa using h.1, by simpa [bne] using h.2⟩
  have hlow : pyLower n = n := eq_of_beq hlowb
  rw [hygienicDtype, Bool.and_eq_true, Bool.and_eq_true] at hd
  obtain ⟨⟨hdh0, hdl0⟩, hdall⟩ := hd
  have hd_ne : d.data ≠ [] := by
    intro hcon
    rw [hcon] at hdh0
    simp at hdh0
  have hd_head : ∀ a, d.data.head? = some a → pyIsSpace a = false := by
    intro a ha
    cases hdd : d.data with
    | nil => rw [hdd] at ha; cases ha
    | cons c0 rest =>
      rw [hdd] at ha
      have hac : c0 = a := by simpa using ha
      rw [← hac]
      rw [hdd] at hdh0
      simpa using hdh0
  have hd_last : ∀ a, d.data.getLast? = some a → pyIsSpace a = false := by
    intro a ha
    rw [ha] at hdl0
    simpa using hdl0
  have hd_opts : ∀ o ∈ defOptions, pyIn o (pyLower d) = false := by
    intro o ho
    have h := (List.all_eq_true.mp hdall) o ho
    simpa using h
  -- the data of the serialized definition
  have hdata : (n ++ " " ++ d).data = n.data ++ ' ' :: d.data := by
    rw [strData_append, strData_append]
    rw [List.append_assoc]
    rfl
  obtain ⟨c0, n', hn_eq⟩ : ∃ c0 n', n.data = c0 :: n' := by
    cases hne : n.data with
    | nil => exact absurd hne hn_ne
    | cons a b => exact ⟨a, b, rfl⟩
  -- the outer strip is a no-op
  have hstrip : pyStrip (n ++ " " ++ d) = n ++ " " ++ d := by
    show (⟨stripL (n ++ " " ++ d).data⟩ : String) = n ++ " " ++ d
    have hs : stripL (n ++ " " ++ d).data = (n ++ " " ++ d).data := by
      rw [hdata]
      apply stripL_eq_self
      · intro a ha
        rw [hn_eq] at ha
        have hac : c0 = a := by simpa using ha
        rw [← hac]
        exact (hn_all c0 (hn_eq ▸ List.mem_cons_self c0 n')).1
      · intro a ha
        rw [List.getLast?_append_of_ne_nil _ (by simp)] at ha
        cases hdd : d.data with
        | nil => exact absurd hdd hd_ne
        | cons e0 rest =>
          rw [hdd, List.getLast?_cons_cons] at ha
          apply hd_last a
          rw [hdd]
          exact ha
    rw [hs]
  -- the head of the definition is the head of the name, not a backquote
  have hsc : (n ++ " " ++ d).data = c0 :: (n' ++ ' ' :: d.data) := by
    rw [hdata, hn_eq]
    rfl
  have hbq : (c0 == backquote) = false :=
    (hn_all c0 (hn_eq ▸ List.mem_cons_self c0 n')).2
  -- the name split
  have hsplit : pySplitNone1 (n ++ " " ++ d) = some (n, d) := by
    have h := pySplitNone1_simple n d hn_ne (fun c hc => (hn_all c hc).1) hd_ne hd_head
    have he : (⟨n.data ++ ' ' :: d.data⟩ : String) = n ++ " " ++ d :=
      congrArg String.mk hdata.symm
    rwa [he] at h
  have hpn : parse_name (n ++ " " ++ d) = .ok (n, d) := by
    unfold parse_name
    rw [hsc]
    simp only [hbq, Bool.false_eq_true, if_false, hsplit]
  -- no option keyword occurs in the dtype
  have hfind : defOptions.find? (fun o => pyIn o (pyLower d)) = none :=
    List.find?_eq_none.mpr (fun o ho => by simp [hd_opts o ho])
  -- assemble
  have hbind : ∀ {α β : Type} (a : α) (f : α → Except PyErr β),
      ((Except.ok a : Except PyErr α) >>= f) = f a := fun _ _ => rfl
  unfold from_definition
  simp only [hstrip, hpn, hbind, hfind, hlow]
  rfl

/-- Counterexample for C5 as stated: `Column.__str__` renders only
`name dtype`, so the column parsed from `"a int not null"` (whose `null` is
`False`) serializes to `"a int"`, which re-parses with `null = True`: the
round trip does not preserve `null`. -/
theorem c5_not_null_lost :
    ∃ c c' : ColumnDef,
      from_definition "a int not null" = Except.ok c ∧
      from_definition (columnStr c) = Except.ok c' ∧
      c.null ≠ c'.null :=
  ⟨columnInit "a" "int" false none true false false false false "",
   columnInit "a" "int" true none true false false false false "",
   rfl, rfl, by decide⟩

/-- C5 (amended): the `str`/`from_definition` round trip preserves the name
and the dtype — for a name that needs no backquoting (nonempty, no whitespace
or backquote, already lower-case) and a dtype with no edge whitespace whose
lower-casing contains none of the scanned option keywords — while `null`,
`default`, `visible`, `increment`, `unique`, `key`, `primary` and `comment`
are reset to the parser defaults, since `Column.__str__` renders only
`f"{self.name} {self.dtype!s}"`. -/
theorem c5_roundtrip_name_dtype (c : ColumnDef)
    (hn : hygienicName c.name = true) (hd : hygienicDtype c.dtype = true) :
    from_definition (columnStr c)
      = Except.ok (columnInit c.name c.dtype true none true false false false false "") :=
  parse_simple c.name c.dtype hn hd

/-- Witness for C5 (amended) at the column `a int`. -/
theorem c5_roundtrip_name_dtype_witness :
    hygienicName "a" = true ∧ hygienicDtype "int" = true ∧
    from_definition (columnStr (columnInit "a" "int" true none true false false false false ""))
      = Except.ok (columnInit "a" "int" true none true false false false false "") :=
  ⟨by decide, by decide,
   c5_roundtrip_name_dtype (columnInit "a" "int" true none true false false false false "")
     (by decide) (by decide)⟩

/-- Witness for C6: collapsing `[index, unique]` under an `"index"` query keeps
the unique. -/
theorem c6_get_constraint_idempotent_witness :
    get_constraint "index"
        (get_constraint "index" [⟨0, "Index", "index"⟩, ⟨1, "Unique", "unique"⟩]).2
      = get_constraint "index" [⟨0, "Index", "index"⟩, ⟨1, "Unique", "unique"⟩]
    ∧ (((get_constraint "index" [⟨0, "Index", "index"⟩, ⟨1, "Unique", "unique"⟩]).2.filter
        (catMatch "index")).length ≤ 1) :=
  ⟨(c6_get_constraint_idempotent "index"
      [⟨0, "Index", "index"⟩, ⟨1, "Unique", "unique"⟩] (by decide)).1,
   (c6_get_constraint_idempotent "index"
      [⟨0, "Index", "index"⟩, ⟨1, "Unique", "unique"⟩] (by decide)).2.1⟩

end Pyf
